import Mathlib

/-!
# Verification of the aPMV setpoint augmentation
  (accim/sim/apmv_setpoints_wip_4_4_testing.py)

Shallow embedding of the target-resolution engine and the idempotent EMS
artifact generators of the unified (wip_4_4) version, together with proofs
and counterexamples for the specified properties.

Conventions of the embedding:
* The mutable in-memory IDF model is a `Building` record of per-type object
  lists; `newidfobject` appends at the end of the corresponding list and
  `removeidfobject` deletes the object, exactly as in the eppy object model.
* Python dicts built by successive insertion are modelled by `lookupLast`
  (for duplicate keys the last insertion wins); `list(set(xs))` and the keys
  of a dict built over an index are modelled by `py_list_set`
  (first-occurrence deduplication; CPython set order is unspecified, only
  membership is observable downstream).
* Numeric values are rationals; warnings are structured records rather than
  formatted strings.
-/

set_option linter.unusedVariables false

/-- Python `str.upper()` (ASCII inputs): uppercase every character.
Defined over the character list so that it evaluates inside the kernel
(`String.toUpper` recurses on byte positions and does not). -/
def pyUpper (s : String) : String := ⟨s.data.map Char.toUpper⟩

/-- Python `str.strip()`: remove leading and trailing whitespace. -/
def pyStrip (s : String) : String :=
  ⟨((s.data.dropWhile Char.isWhitespace).reverse.dropWhile Char.isWhitespace).reverse⟩

/-- `x.upper().strip()`, the key normalization used by every lookup of
`_resolve_targets`. -/
def py_upper_strip (s : String) : String := pyStrip (pyUpper s)

/-- Python dict lookup for a dict built by successive insertion from an
association list: the LAST binding of a key wins. -/
def lookupLast {α : Type} (l : List (String × α)) (k : String) : Option α :=
  l.foldl (fun acc p => if p.1 = k then some p.2 else acc) none

/-- First-occurrence deduplication, preserving order: models the key set of a
Python dict built by inserting keys in list order (and `list(set(xs))`, whose
order is unspecified but whose membership this captures). -/
def py_list_set (l : List String) : List String :=
  l.foldl (fun acc k => if acc.contains k then acc else acc ++ [k]) []

/-- `_sanitize_ems_name` (source lines 44-48):
`name.replace(' ', '_').replace(':', '_').replace('-', '_')`.
Every pattern is a single character and the replacement `'_'` is not one of
the later patterns, so the chain of `str.replace` calls is one
character-by-character substitution, which is how it is embedded. -/
def _sanitize_ems_name (name : String) : String :=
  ⟨name.data.map (fun c => if c = ' ' ∨ c = ':' ∨ c = '-' then '_' else c)⟩

/-- A `People` object. The container reference is read through the
version-dependent attribute chain of source lines 95-102
(`Zone_or_ZoneList_Name`, else `Zone_or_ZoneList_or_Space_or_SpaceList_Name`,
else `Zone_Name`); whichever of the three fields the schema defines is the
single `container` field here, `""` when the field is blank/unset. -/
structure People where
  Name : String
  container : String
deriving DecidableEq

/-- A `ZONELIST` object: `Name` plus the `Zone_1_Name`, `Zone_2_Name`, ...
extensible fields in order. -/
structure ZoneList where
  Name : String
  zoneNames : List String
deriving DecidableEq

/-- A `SPACELIST` object: `Name` plus the `Space_1_Name`, ... fields. -/
structure SpaceList where
  Name : String
  spaceNames : List String
deriving DecidableEq

/-- A `SPACE` object: `Name` and its owning `Zone_Name`. -/
structure SpaceObj where
  Name : String
  Zone_Name : String
deriving DecidableEq

/-- A `Schedule:Compact` object with the fields this module writes. -/
structure ScheduleCompact where
  Name : String
  Schedule_Type_Limits_Name : String
  Field_1 : String
  Field_2 : String
  Field_3 : String
deriving DecidableEq

/-- A `ZoneControl:Thermostat` (standard, temperature-based) object. -/
structure ZCThermostat where
  Name : String
  Zone_or_ZoneList_Name : String
deriving DecidableEq

/-- A `ZoneControl:Thermostat:ThermalComfort` object. -/
structure TCThermostat where
  Name : String
  Zone_or_ZoneList_Name : String
  Thermal_Comfort_Control_Type_Schedule_Name : String
  Thermal_Comfort_Control_1_Object_Type : String
  Thermal_Comfort_Control_1_Name : String
deriving DecidableEq

/-- A `ThermostatSetpoint:ThermalComfort:Fanger:DualSetpoint` object. -/
structure FangerDualSetpoint where
  Name : String
  Fanger_Thermal_Comfort_Heating_Schedule_Name : String
  Fanger_Thermal_Comfort_Cooling_Schedule_Name : String
deriving DecidableEq

/-- An `EnergyManagementSystem:Sensor` object. -/
structure EMSSensor where
  Name : String
  OutputVariable_or_OutputMeter_Index_Key_Name : String
  OutputVariable_or_OutputMeter_Name : String
deriving DecidableEq

/-- An `EnergyManagementSystem:Actuator` object. -/
structure EMSActuator where
  Name : String
  Actuated_Component_Unique_Name : String
  Actuated_Component_Type : String
  Actuated_Component_Control_Type : String
deriving DecidableEq

/-- Bodies of the EMS programs generated by `_add_apmv_programs`, represented
structurally: every generated program text is determined by the constructor
and its parameters (the source assembles the same information into
`Program_Line_i` strings). -/
inductive ProgramBody where
  | season_input_data (CoolSeasonStart CoolSeasonEnd : ℚ)
  | season_compute
  | zone_input_data (suffix : String)
      (adap_coeff_cooling adap_coeff_heating pmv_cooling_sp pmv_heating_sp
       tolerance_cooling_sp_cooling_season tolerance_cooling_sp_heating_season
       tolerance_heating_sp_cooling_season tolerance_heating_sp_heating_season : ℚ)
  | apply_aPMV (suffix : String)
  | monitor_aPMV (suffix : String)
  | count_comfort_hours (suffix : String)
deriving DecidableEq

/-- An `EnergyManagementSystem:Program` object. -/
structure EMSProgram where
  Name : String
  body : ProgramBody
deriving DecidableEq

/-- An `EnergyManagementSystem:ProgramCallingManager` object. -/
structure EMSPcm where
  Name : String
  EnergyPlus_Model_Calling_Point : String
  Program_Name_1 : String
deriving DecidableEq

/-- An `EnergyManagementSystem:OutputVariable` object. -/
structure EMSOutputVariable where
  Name : String
  EMS_Variable_Name : String
  Type_of_Data_in_Variable : String
  Update_Frequency : String
  Units : String
deriving DecidableEq

/-- An `Output:Variable` object. -/
structure OutputVariable where
  Key_Value : String
  Variable_Name : String
  Reporting_Frequency : String
deriving DecidableEq

/-- An `OutputControl:Files` object (only the three fields the module sets). -/
structure OutputControlFiles where
  Output_CSV : String
  Output_MTR : String
  Output_ESO : String
deriving DecidableEq

/-- The in-memory IDF model: one list per object type, in file order.
`zones` lists the `Name`s of the `ZONE` objects (the resolver never reads
them; they are carried to state zone-existence properties). -/
structure Building where
  zones : List String := []
  zonelists : List ZoneList := []
  spacelists : List SpaceList := []
  spaces : List SpaceObj := []
  people : List People := []
  schedules : List ScheduleCompact := []
  thermostats : List ZCThermostat := []
  tcThermostats : List TCThermostat := []
  fangerObjs : List FangerDualSetpoint := []
  sensors : List EMSSensor := []
  actuators : List EMSActuator := []
  globalVars : List String := []
  programs : List EMSProgram := []
  pcms : List EMSPcm := []
  emsOutputVars : List EMSOutputVariable := []
  outputVariables : List OutputVariable := []
  outputControlFiles : List OutputControlFiles := []
deriving DecidableEq

/-- The resolved unit of control (`Target` of the spec): the dict literal of
source lines 121-126 / 139-144 / 151-156 / 161-166. -/
structure Target where
  df_key : String
  ems_suffix : String
  sensor_key : String
  zone_name : String
deriving DecidableEq

/-- Structured form of the `warnings.warn` calls of the module. -/
inductive Warning where
  | spaceNotFound (space : String) (containerName : String)
  | keysDropped (argName : String) (keys : List String)
deriving DecidableEq

/-- `get_items_from_list` (source lines 80-91): reads the extensible fields
`<prefix>_1_Name` .. `<prefix>_499_Name` in order, stopping at the first
blank or absent field. -/
def get_items_from_list (fields : List String) : List String :=
  (fields.take 499).takeWhile (fun v => v ≠ "")

/-- The `zone_lists` lookup (source line 63): dict keyed by
`zl.Name.upper().strip()`, last binding wins. -/
def zone_lists (b : Building) (k : String) : Option ZoneList :=
  lookupLast (b.zonelists.map (fun zl => (py_upper_strip zl.Name, zl))) k

/-- The `space_lists` lookup (source line 69). -/
def space_lists (b : Building) (k : String) : Option SpaceList :=
  lookupLast (b.spacelists.map (fun sl => (py_upper_strip sl.Name, sl))) k

/-- The `space_to_zone` lookup (source lines 73-78): Space name (uppercased,
stripped) to its `Zone_Name`. -/
def space_to_zone (b : Building) (k : String) : Option String :=
  lookupLast (b.spaces.map (fun s => (py_upper_strip s.Name, s.Zone_Name))) k

/-- The body of the `for people in building.idfobjects['PEOPLE']` loop of
`_resolve_targets` (source lines 94-166), for one `People` object: the
targets it appends and the warnings it issues, in order. -/
def resolveOne (b : Building) (people : People) : List Target × List Warning :=
  let container_name := people.container
  if container_name = "" then ([], [])
  else
    let p_name := people.Name
    let c_name_upper := py_upper_strip container_name
    match space_lists b c_name_upper with
    | some sl_obj =>
        -- PRIORITY 1: SPACELIST (lines 110-130)
        let spaces_in_list := get_items_from_list sl_obj.spaceNames
        spaces_in_list.foldl
          (fun acc s =>
            match space_to_zone b (py_upper_strip s) with
            | some parent_zone =>
                (acc.1 ++ [{ df_key := s ++ " " ++ p_name,
                             ems_suffix := _sanitize_ems_name (s ++ "_" ++ p_name),
                             sensor_key := s ++ " " ++ p_name,
                             zone_name := parent_zone }], acc.2)
            | none =>
                (acc.1, acc.2 ++ [Warning.spaceNotFound s container_name]))
          ([], [])
    | none =>
      match zone_lists b c_name_upper with
      | some zl_obj =>
          -- PRIORITY 2: ZONELIST (lines 133-144)
          ((get_items_from_list zl_obj.zoneNames).map
            (fun z => { df_key := z ++ " " ++ p_name,
                        ems_suffix := _sanitize_ems_name (z ++ "_" ++ p_name),
                        sensor_key := z ++ " " ++ p_name,
                        zone_name := z }), [])
      | none =>
        match space_to_zone b c_name_upper with
        | some parent_zone =>
            -- PRIORITY 3: SPACE direct (lines 147-156)
            ([{ df_key := container_name ++ " " ++ p_name,
                ems_suffix := _sanitize_ems_name (container_name ++ "_" ++ p_name),
                sensor_key := container_name ++ " " ++ p_name,
                zone_name := parent_zone }], [])
        | none =>
            -- PRIORITY 4: ZONE direct / fallback (lines 159-166)
            ([{ df_key := container_name,
                ems_suffix := _sanitize_ems_name container_name,
                sensor_key := p_name,
                zone_name := container_name }], [])

/-- `_resolve_targets` (source lines 51-168), also returning the warnings it
issues (the source sends them through `warnings.warn`). -/
def _resolve_targets (b : Building) : List Target × List Warning :=
  b.people.foldl
    (fun acc p =>
      let r := resolveOne b p
      (acc.1 ++ r.1, acc.2 ++ r.2))
    ([], [])

/-! ## List helpers modelling in-place mutation and identity-based removal -/

/-- Update the first element satisfying `p` (the object a linear search such
as the loop of `_update_fanger_object` stops at). -/
def updateFirstWhere {α : Type} (p : α → Bool) (f : α → α) : List α → List α
  | [] => []
  | x :: xs => if p x then f x :: xs else x :: updateFirstWhere p f xs

/-- Update the last element satisfying `p` (the object held by a dict keyed
with last-binding-wins, as in `existing_tc_thermostats`). -/
def updateLastWhere {α : Type} (p : α → Bool) (f : α → α) (l : List α) : List α :=
  (updateFirstWhere p f l.reverse).reverse

/-- Remove the first element satisfying `p`. -/
def removeFirstWhere {α : Type} (p : α → Bool) : List α → List α
  | [] => []
  | x :: xs => if p x then xs else x :: removeFirstWhere p xs

/-- Remove the last element satisfying `p` (models
`building.removeidfobject(old_t)` where `old_t` came from a
last-binding-wins dict keyed by uppercased zone name). -/
def removeLastWhere {α : Type} (p : α → Bool) (l : List α) : List α :=
  (removeFirstWhere p l.reverse).reverse

/-! ## Infrastructure ensurer (source lines 257-361) -/

/-- `_update_fanger_object` (source lines 345-361): find the first
`Fanger:DualSetpoint` named `obj_name` (create it if absent), then point its
heating/cooling schedule fields at the zone's `PMV_H_SP_`/`PMV_C_SP_`
schedules. -/
def _update_fanger_object (b : Building) (obj_name zone : String) : Building :=
  let b :=
    if b.fangerObjs.any (fun f => f.Name = obj_name) then b
    else { b with fangerObjs := b.fangerObjs ++ [⟨obj_name, "", ""⟩] }
  let setSchedules : FangerDualSetpoint → FangerDualSetpoint := fun f =>
    ⟨f.Name, "PMV_H_SP_" ++ zone, "PMV_C_SP_" ++ zone⟩
  { b with fangerObjs :=
      updateFirstWhere (fun f => f.Name = obj_name) setSchedules b.fangerObjs }

/-- The constant-value setpoint schedule created by `_ensure_infrastructure`
(source lines 269-276): value line `Until: 24:00,1`. -/
def pmv_schedule (nm : String) : ScheduleCompact :=
  ⟨nm, "Any Number", "Through: 12/31", "For: AllDays", "Until: 24:00,1"⟩

/-- The control-type schedule created by `_create_tc_thermostat`
(source lines 321-330): value line `Until: 24:00,4` (4 = thermal comfort). -/
def ctrl_schedule (zone : String) : ScheduleCompact :=
  ⟨"Thermal Comfort Control Type Schedule Name " ++ zone,
   "Any Number", "Through: 12/31", "For: AllDays", "Until: 24:00,4"⟩

/-- `_create_tc_thermostat` (source lines 319-343). -/
def _create_tc_thermostat (b : Building) (zone : String) : Building :=
  let sch_name := "Thermal Comfort Control Type Schedule Name " ++ zone
  let b :=
    if b.schedules.any (fun s => s.Name = sch_name) then b
    else { b with schedules := b.schedules ++ [ctrl_schedule zone] }
  let b := { b with tcThermostats := b.tcThermostats ++
      [⟨"Thermostat Setpoint Dual Setpoint " ++ zone, zone, sch_name,
        "ThermostatSetpoint:ThermalComfort:Fanger:DualSetpoint",
        "Fanger Setpoint " ++ zone⟩] }
  _update_fanger_object b ("Fanger Setpoint " ++ zone) zone

/-- The body of the thermostat loop of `_ensure_infrastructure` (source
lines 291-317) for one zone, parameterized by the two snapshot dicts taken
before the loop. -/
def ensure_zone_step (existing_tc_thermostats : String → Option TCThermostat)
    (existing_thermostats : String → Option ZCThermostat)
    (b : Building) (zone : String) : Building :=
  let z_upper := pyUpper zone
  match existing_tc_thermostats z_upper with
  | some tc_t =>
      -- Case C (lines 309-317): thermal-comfort thermostat exists
      let makeFanger : TCThermostat → TCThermostat := fun t =>
        ⟨t.Name, t.Zone_or_ZoneList_Name,
         t.Thermal_Comfort_Control_Type_Schedule_Name,
         "ThermostatSetpoint:ThermalComfort:Fanger:DualSetpoint",
         "Fanger Setpoint " ++ zone⟩
      let fixedTc :=
        updateLastWhere (fun t => pyUpper t.Zone_or_ZoneList_Name = z_upper)
          makeFanger b.tcThermostats
      let b :=
        if tc_t.Thermal_Comfort_Control_1_Object_Type ≠
            "ThermostatSetpoint:ThermalComfort:Fanger:DualSetpoint" then
          { b with tcThermostats := fixedTc }
        else b
      _update_fanger_object b ("Fanger Setpoint " ++ zone) zone
  | none =>
    match existing_thermostats z_upper with
    | some _ =>
        -- Case B (lines 300-306): replace the standard thermostat
        let remaining :=
          removeLastWhere (fun t => pyUpper t.Zone_or_ZoneList_Name = z_upper)
            b.thermostats
        let b := { b with thermostats := remaining }
        _create_tc_thermostat b zone
    | none =>
        -- Case A (lines 295-297): no thermostat at all
        _create_tc_thermostat b zone

/-- The batch of missing `PMV_H_SP_`/`PMV_C_SP_` schedules created in step 1
of `_ensure_infrastructure` (source lines 264-277), guarded by the
`sch_comp_objs` snapshot. -/
def pmv_schedule_batch (sch_comp_objs : List String)
    (unique_zones : List String) : List ScheduleCompact :=
  ["PMV_H_SP", "PMV_C_SP"].flatMap (fun i =>
    unique_zones.filterMap (fun zone =>
      let sch_name := i ++ "_" ++ zone
      if sch_comp_objs.contains sch_name then none
      else some (pmv_schedule sch_name)))

/-- `_ensure_infrastructure` (source lines 257-317).
The `existing_thermostats` / `existing_tc_thermostats` dicts are snapshots
taken before the zone loop, keyed by `zone.upper()` with the last binding
winning; the mutation/removal of the object a dict holds is modelled as
updating/removing the last element with that key in the live list (the
element the last-wins binding designates). -/
def _ensure_infrastructure (b : Building) (unique_zones : List String) : Building :=
  let sch_comp_objs := b.schedules.map (·.Name)
  let b := { b with schedules := b.schedules ++
      pmv_schedule_batch sch_comp_objs unique_zones }
  let existing_thermostats := fun k =>
    lookupLast (b.thermostats.map (fun t => (pyUpper t.Zone_or_ZoneList_Name, t))) k
  let existing_tc_thermostats := fun k =>
    lookupLast (b.tcThermostats.map (fun t => (pyUpper t.Zone_or_ZoneList_Name, t))) k
  unique_zones.foldl (ensure_zone_step existing_tc_thermostats existing_thermostats) b

/-! ## EMS generators (source lines 364-568) -/

/-- `_add_apmv_sensors` (source lines 389-405). The name list is a snapshot
taken at entry; both sensors of a pair are guarded against it. -/
def _add_apmv_sensors (b : Building) (sensor_keys suffixes : List String) : Building :=
  let sensornamelist := b.sensors.map (·.Name)
  { b with sensors := b.sensors ++
      ((suffixes.zip sensor_keys).flatMap (fun sk =>
        (if sensornamelist.contains ("PMV_" ++ sk.1) then []
         else [⟨"PMV_" ++ sk.1, sk.2, "Zone Thermal Comfort Fanger Model PMV"⟩]) ++
        (if sensornamelist.contains ("People_Occupant_Count_" ++ sk.1) then []
         else [⟨"People_Occupant_Count_" ++ sk.1, sk.2, "People Occupant Count"⟩]))) }

/-- The 21 per-target variable stems of `_add_apmv_global_variables`
(source lines 408-415). -/
def gv_variable_stems : List String :=
  ["tolerance_cooling_sp", "tolerance_cooling_sp_cooling_season",
   "tolerance_cooling_sp_heating_season",
   "tolerance_heating_sp", "tolerance_heating_sp_cooling_season",
   "tolerance_heating_sp_heating_season",
   "adap_coeff", "adap_coeff_heating", "adap_coeff_cooling",
   "pmv_heating_sp", "pmv_cooling_sp", "aPMV",
   "comfhour", "discomfhour", "discomfhour_heat", "discomfhour_cold",
   "occupied_hour",
   "aPMV_H_SP", "aPMV_C_SP", "aPMV_H_SP_noTol", "aPMV_C_SP_noTol"]

/-- `_add_apmv_global_variables` (source lines 407-425); `existing` is the
set of `Erl_Variable_1_Name`s at entry. -/
def _add_apmv_global_variables (b : Building) (suffixes : List String) : Building :=
  let existing := b.globalVars
  { b with globalVars := b.globalVars ++
      ((["CoolingSeason", "CoolSeasonEnd", "CoolSeasonStart"].filter
          (fun gv => ¬ existing.contains gv)) ++
       (gv_variable_stems.flatMap (fun stem =>
         suffixes.filterMap (fun suffix =>
           let gv := stem ++ "_" ++ suffix
           if existing.contains gv then none else some gv)))) }

/-- `_add_apmv_actuators` (source lines 364-383). -/
def _add_apmv_actuators (b : Building) (target_data : List Target) : Building :=
  let actuatornamelist := b.actuators.map (·.Name)
  { b with actuators := b.actuators ++
      (target_data.flatMap (fun target =>
        ["H", "C"].filterMap (fun i =>
          let act_name := "PMV_" ++ i ++ "_SP_act_" ++ target.ems_suffix
          let sch_name := "PMV_" ++ i ++ "_SP_" ++ target.zone_name
          if actuatornamelist.contains act_name then none
          else some ⟨act_name, sch_name, "Schedule:Compact", "Schedule Value"⟩))) }

/-! ## Parameter table builder (source lines 574-617) -/

/-- A caller-supplied tunable: a scalar or a per-target mapping
(`Union[float, dict]`). A mapping is a Python dict, written as the
association list of its insertions. -/
inductive ArgVal where
  | scalar (v : ℚ)
  | mapping (m : List (String × ℚ))
deriving DecidableEq

/-- One row of the `df_arguments` table. -/
structure ParamRow where
  adap_coeff_cooling : ℚ
  adap_coeff_heating : ℚ
  pmv_cooling_sp : ℚ
  pmv_heating_sp : ℚ
  tolerance_cooling_sp_cooling_season : ℚ
  tolerance_cooling_sp_heating_season : ℚ
  tolerance_heating_sp_cooling_season : ℚ
  tolerance_heating_sp_heating_season : ℚ
  underscore_zonename : String
deriving DecidableEq

/-- The value the series built by `process_arg` holds at key `k`:
`arg_val.get(k, default_val)` for a mapping, the scalar otherwise
(source lines 595-599). -/
def series_value (arg_val : ArgVal) (default_val : ℚ) (k : String) : ℚ :=
  match arg_val with
  | .scalar v => v
  | .mapping m => (lookupLast m k).getD default_val

/-- `process_arg` (source lines 589-600): returns the series (a dict keyed by
the target names, in first-insertion order) and the warnings it issues.
Only keys of a mapping that are not target names are warned about; a target
missing from the mapping silently receives `default_val`. -/
def process_arg (space_ppl_names : List String) (arg_val : ArgVal)
    (arg_name : String) (default_val : ℚ) :
    List (String × ℚ) × List Warning :=
  let data := (py_list_set space_ppl_names).map
    (fun k => (k, series_value arg_val default_val k))
  match arg_val with
  | .scalar _ => (data, [])
  | .mapping m =>
      let dropped := (py_list_set (m.map Prod.fst)).filter
        (fun k => ¬ space_ppl_names.contains k)
      (data, if dropped = [] then [] else [Warning.keysDropped arg_name dropped])

/-- `generate_df_from_args` (source lines 574-617), also returning the
warnings issued by the eight `process_arg` calls in call order. The row
index is the first-occurrence deduplication of `target_keys_input` (a dict
index); `underscore_zonename` comes from `dict(zip(target_keys_input,
ems_suffixes))`, last binding winning. -/
def generate_df_from_args
    (target_keys_input ems_suffixes : List String)
    (adap_coeff_cooling adap_coeff_heating pmv_cooling_sp pmv_heating_sp
     tolerance_cooling_sp_cooling_season tolerance_cooling_sp_heating_season
     tolerance_heating_sp_cooling_season tolerance_heating_sp_heating_season : ArgVal)
    (dflt_for_adap_coeff_cooling dflt_for_adap_coeff_heating
     dflt_for_pmv_cooling_sp dflt_for_pmv_heating_sp
     dflt_for_tolerance_cooling_sp_cooling_season
     dflt_for_tolerance_cooling_sp_heating_season
     dflt_for_tolerance_heating_sp_cooling_season
     dflt_for_tolerance_heating_sp_heating_season : ℚ) :
    List (String × ParamRow) × List Warning :=
  let space_ppl_names := target_keys_input
  let s1 := process_arg space_ppl_names adap_coeff_cooling "adap_coeff_cooling"
              dflt_for_adap_coeff_cooling
  let s2 := process_arg space_ppl_names adap_coeff_heating "adap_coeff_heating"
              dflt_for_adap_coeff_heating
  let s3 := process_arg space_ppl_names pmv_cooling_sp "pmv_cooling_sp"
              dflt_for_pmv_cooling_sp
  let s4 := process_arg space_ppl_names pmv_heating_sp "pmv_heating_sp"
              dflt_for_pmv_heating_sp
  let s5 := process_arg space_ppl_names tolerance_cooling_sp_cooling_season
              "tolerance_cooling_sp_cooling_season"
              dflt_for_tolerance_cooling_sp_cooling_season
  let s6 := process_arg space_ppl_names tolerance_cooling_sp_heating_season
              "tolerance_cooling_sp_heating_season"
              dflt_for_tolerance_cooling_sp_heating_season
  let s7 := process_arg space_ppl_names tolerance_heating_sp_cooling_season
              "tolerance_heating_sp_cooling_season"
              dflt_for_tolerance_heating_sp_cooling_season
  let s8 := process_arg space_ppl_names tolerance_heating_sp_heating_season
              "tolerance_heating_sp_heating_season"
              dflt_for_tolerance_heating_sp_heating_season
  let suffix_map := fun k =>
    (lookupLast (target_keys_input.zip ems_suffixes) k).getD ""
  let rows := (py_list_set space_ppl_names).map (fun k =>
    (k, (⟨series_value adap_coeff_cooling dflt_for_adap_coeff_cooling k,
          series_value adap_coeff_heating dflt_for_adap_coeff_heating k,
          series_value pmv_cooling_sp dflt_for_pmv_cooling_sp k,
          series_value pmv_heating_sp dflt_for_pmv_heating_sp k,
          series_value tolerance_cooling_sp_cooling_season
            dflt_for_tolerance_cooling_sp_cooling_season k,
          series_value tolerance_cooling_sp_heating_season
            dflt_for_tolerance_cooling_sp_heating_season k,
          series_value tolerance_heating_sp_cooling_season
            dflt_for_tolerance_heating_sp_cooling_season k,
          series_value tolerance_heating_sp_heating_season
            dflt_for_tolerance_heating_sp_heating_season k,
          suffix_map k⟩ : ParamRow)))
  (rows, s1.2 ++ s2.2 ++ s3.2 ++ s4.2 ++ s5.2 ++ s6.2 ++ s7.2 ++ s8.2)

/-! ## EMS programs (source lines 427-521) -/

/-- `_add_apmv_programs` (source lines 427-513). `programlist` is a snapshot
of program names at entry; per suffix, the parameter row is the first row of
`df_arguments` whose `underscore_zonename` equals the suffix, and the suffix
is skipped entirely (`continue`) when there is none. -/
def _add_apmv_programs (b : Building) (suffixes : List String)
    (df_arguments : List (String × ParamRow)) (cool_start cool_end : ℚ) :
    Building :=
  let programlist := b.programs.map (·.Name)
  let add_season_input :=
    if programlist.contains "set_cooling_season_input_data" then []
    else [({ Name := "set_cooling_season_input_data",
             body := .season_input_data cool_start cool_end } : EMSProgram)]
  let add_season :=
    if programlist.contains "set_cooling_season" then []
    else [({ Name := "set_cooling_season", body := .season_compute } : EMSProgram)]
  let add_per_suffix := suffixes.flatMap (fun suffix =>
    match df_arguments.find? (fun r => r.2.underscore_zonename = suffix) with
    | none => []
    | some r =>
        (if programlist.contains ("set_zone_input_data_" ++ suffix) then []
         else [({ Name := "set_zone_input_data_" ++ suffix,
                  body := .zone_input_data suffix
                    r.2.adap_coeff_cooling r.2.adap_coeff_heating
                    r.2.pmv_cooling_sp r.2.pmv_heating_sp
                    r.2.tolerance_cooling_sp_cooling_season
                    r.2.tolerance_cooling_sp_heating_season
                    r.2.tolerance_heating_sp_cooling_season
                    r.2.tolerance_heating_sp_heating_season } : EMSProgram)]) ++
        (if programlist.contains ("apply_aPMV_" ++ suffix) then []
         else [({ Name := "apply_aPMV_" ++ suffix,
                  body := .apply_aPMV suffix } : EMSProgram)]) ++
        (if programlist.contains ("monitor_aPMV_" ++ suffix) then []
         else [({ Name := "monitor_aPMV_" ++ suffix,
                  body := .monitor_aPMV suffix } : EMSProgram)]) ++
        (if programlist.contains ("count_aPMV_comfort_hours_" ++ suffix) then []
         else [({ Name := "count_aPMV_comfort_hours_" ++ suffix,
                  body := .count_comfort_hours suffix } : EMSProgram)]))
  { b with programs := b.programs ++ add_season_input ++ add_season ++ add_per_suffix }

/-- `_add_apmv_program_calling_managers` (source lines 515-521): one
`BeginTimestepBeforePredictor` manager per program name without one;
`programlist` is read live at call time, `pcmlist` is a snapshot. -/
def _add_apmv_program_calling_managers (b : Building) : Building :=
  let programlist := b.programs.map (·.Name)
  let pcmlist := b.pcms.map (·.Name)
  { b with pcms := b.pcms ++
      (programlist.filterMap (fun prog =>
        if pcmlist.contains prog then none
        else some ⟨prog, "BeginTimestepBeforePredictor", prog⟩)) }

/-! ## Output requests (source lines 523-568) -/

/-- Python `str.capitalize()`: first character uppercased, the rest
lowercased. -/
def py_capitalize (s : String) : String :=
  match s.data with
  | [] => ""
  | c :: cs => ⟨c.toUpper :: cs.map Char.toLower⟩

/-- Python `str.startswith`. -/
def py_startswith (s pre : String) : Bool := pre.data.isPrefixOf s.data

/-- `EMSOutputVariableZone_dict` (source lines 525-537): display name,
then (EMS variable stem, units, type of data). -/
def EMSOutputVariableZone_dict : List (String × String × String × String) :=
  [("Adaptive Coefficient", "adap_coeff", "", "Averaged"),
   ("aPMV", "aPMV", "", "Averaged"),
   ("aPMV Heating Setpoint", "aPMV_H_SP", "", "Averaged"),
   ("aPMV Cooling Setpoint", "aPMV_C_SP", "", "Averaged"),
   ("aPMV Heating Setpoint No Tolerance", "aPMV_H_SP_noTol", "", "Averaged"),
   ("aPMV Cooling Setpoint No Tolerance", "aPMV_C_SP_noTol", "", "Averaged"),
   ("Comfortable Hours", "comfhour", "H", "Summed"),
   ("Discomfortable Hot Hours", "discomfhour_heat", "H", "Summed"),
   ("Discomfortable Cold Hours", "discomfhour_cold", "H", "Summed"),
   ("Discomfortable Total Hours", "discomfhour", "H", "Summed"),
   ("Occupied hours", "occupied_hour", "H", "Summed")]

/-- The supplementary outputs added when `other_PMV_related_outputs` is set
(source line 558). -/
def additional_outputs : List String :=
  ["Zone Operative Temperature", "Zone Thermal Comfort Fanger Model PMV",
   "Zone Thermal Comfort Fanger Model PPD", "Zone Mean Air Temperature"]

/-- The body of the per-frequency loop of `_add_apmv_outputs`
(source lines 545-561) for one reporting frequency. -/
def add_outputs_freq_step (other_PMV_related_outputs : Bool)
    (unique_zones : List String) (b : Building) (freq : String) : Building :=
  let current_outputs :=
    (b.outputVariables.filter
      (fun o => o.Reporting_Frequency = py_capitalize freq)).map
      (·.Variable_Name)
  let ems_batch : List OutputVariable :=
    (b.emsOutputVars.map (·.Name)).filterMap (fun outvar =>
      if current_outputs.contains outvar ∨ py_startswith outvar "WIP" then none
      else some ⟨"*", outvar, py_capitalize freq⟩)
  let b := { b with outputVariables := b.outputVariables ++ ems_batch }
  let sched_batch : List OutputVariable :=
    ["PMV_H_SP", "PMV_C_SP"].flatMap (fun i =>
      unique_zones.map (fun zone =>
        ⟨i ++ "_" ++ zone, "Schedule Value", py_capitalize freq⟩))
  let b := { b with outputVariables := b.outputVariables ++ sched_batch }
  let additional_batch : List OutputVariable :=
    additional_outputs.filterMap (fun item =>
      if current_outputs.contains item then none
      else some ⟨"*", item, py_capitalize freq⟩)
  if other_PMV_related_outputs then
    { b with outputVariables := b.outputVariables ++ additional_batch }
  else b

/-- The batch of `EnergyManagementSystem:OutputVariable` objects created by
`_add_apmv_outputs` (source lines 538-543), guarded by the name snapshot. -/
def ems_outvar_batch (outputvariablelist : List String) (suffixes : List String) :
    List EMSOutputVariable :=
  EMSOutputVariableZone_dict.flatMap (fun kv =>
    suffixes.filterMap (fun suffix =>
      if outputvariablelist.contains (kv.1 ++ "_" ++ suffix) then none
      else some ⟨kv.1 ++ "_" ++ suffix, kv.2.1 ++ "_" ++ suffix, kv.2.2.2,
                 "ZoneTimestep", kv.2.2.1⟩))

/-- `_add_apmv_outputs` (source lines 523-568). Note that inside the
per-frequency loop the per-zone "Schedule Value" requests (source lines
552-555) are created unconditionally, with no existence check. -/
def _add_apmv_outputs (b : Building) (outputs_freq : List String)
    (other_PMV_related_outputs : Bool) (suffixes unique_zones : List String) :
    Building :=
  let outputvariablelist := b.emsOutputVars.map (·.Name)
  let b := { b with emsOutputVars := b.emsOutputVars ++
      ems_outvar_batch outputvariablelist suffixes }
  let b := outputs_freq.foldl
    (add_outputs_freq_step other_PMV_related_outputs unique_zones) b
  match b.outputControlFiles with
  | [] => { b with outputControlFiles := [⟨"Yes", "Yes", "Yes"⟩] }
  | _ :: rest => { b with outputControlFiles := (⟨"Yes", "Yes", "Yes"⟩ : OutputControlFiles) :: rest }

/-! ## Top-level entry point (source lines 174-250) -/

/-- The configuration surface of `apply_apmv_setpoints`, with the source's
default values. The two season bounds are day-of-year numbers (a `"dd/mm"`
string argument is converted by `transform_ddmm_to_int` before use). -/
structure ApmvArgs where
  outputs_freq : List String := ["hourly"]
  other_PMV_related_outputs : Bool := true
  adap_coeff_cooling : ArgVal := .scalar (293/1000)
  adap_coeff_heating : ArgVal := .scalar (-(293/1000))
  pmv_cooling_sp : ArgVal := .scalar (-(1/2))
  pmv_heating_sp : ArgVal := .scalar (1/2)
  tolerance_cooling_sp_cooling_season : ArgVal := .scalar (-(1/10))
  tolerance_cooling_sp_heating_season : ArgVal := .scalar (-(1/10))
  tolerance_heating_sp_cooling_season : ArgVal := .scalar (1/10)
  tolerance_heating_sp_heating_season : ArgVal := .scalar (1/10)
  cooling_season_start : ℚ := 120
  cooling_season_end : ℚ := 210
  dflt_for_adap_coeff_cooling : ℚ := 2/5
  dflt_for_adap_coeff_heating : ℚ := -(2/5)
  dflt_for_pmv_cooling_sp : ℚ := 1/2
  dflt_for_pmv_heating_sp : ℚ := -(1/2)
  dflt_for_tolerance_cooling_sp_cooling_season : ℚ := -(1/10)
  dflt_for_tolerance_cooling_sp_heating_season : ℚ := -(1/10)
  dflt_for_tolerance_heating_sp_cooling_season : ℚ := 1/10
  dflt_for_tolerance_heating_sp_heating_season : ℚ := 1/10
deriving DecidableEq

/-- The `df_arguments` table built in step 4 of `apply_apmv_setpoints`. -/
def apply_df_arguments (target_data : List Target) (args : ApmvArgs) :
    List (String × ParamRow) × List Warning :=
  generate_df_from_args (target_data.map Target.df_key)
    (target_data.map Target.ems_suffix)
    args.adap_coeff_cooling args.adap_coeff_heating
    args.pmv_cooling_sp args.pmv_heating_sp
    args.tolerance_cooling_sp_cooling_season args.tolerance_cooling_sp_heating_season
    args.tolerance_heating_sp_cooling_season args.tolerance_heating_sp_heating_season
    args.dflt_for_adap_coeff_cooling args.dflt_for_adap_coeff_heating
    args.dflt_for_pmv_cooling_sp args.dflt_for_pmv_heating_sp
    args.dflt_for_tolerance_cooling_sp_cooling_season
    args.dflt_for_tolerance_cooling_sp_heating_season
    args.dflt_for_tolerance_heating_sp_cooling_season
    args.dflt_for_tolerance_heating_sp_heating_season

/-- `apply_apmv_setpoints` (source lines 174-250): resolve targets, ensure
infrastructure for the unique zones, build the parameter table, then run the
six EMS generators in order and return the mutated building. -/
def apply_apmv_setpoints (building : Building) (args : ApmvArgs) : Building :=
  let target_data := (_resolve_targets building).1
  let ems_target_suffixes := target_data.map Target.ems_suffix
  let ems_sensor_keys := target_data.map Target.sensor_key
  let target_zones := target_data.map Target.zone_name
  let unique_zones := py_list_set target_zones
  let building := _ensure_infrastructure building unique_zones
  let df_arguments := (apply_df_arguments target_data args).1
  let building := _add_apmv_sensors building ems_sensor_keys ems_target_suffixes
  let building := _add_apmv_global_variables building ems_target_suffixes
  let building := _add_apmv_actuators building target_data
  let building := _add_apmv_programs building ems_target_suffixes df_arguments
    args.cooling_season_start args.cooling_season_end
  let building := _add_apmv_program_calling_managers building
  _add_apmv_outputs building args.outputs_freq args.other_PMV_related_outputs
    ems_target_suffixes unique_zones

/-! ## Semantics of the generated EMS control programs -/

/-- Semantics of the generated `set_cooling_season` program
(source lines 434-444), line by line:
`if CoolSeasonEnd > CoolSeasonStart` then `CoolingSeason` is set to 1 when
`DayOfYear >= CoolSeasonStart && DayOfYear < CoolSeasonEnd` and to 0
otherwise; `elseif CoolSeasonStart > CoolSeasonEnd` the OR-wrap test
`DayOfYear >= CoolSeasonStart || DayOfYear < CoolSeasonEnd` is used; when
the bounds are equal neither branch runs and `CoolingSeason` keeps its
previous value. -/
def set_cooling_season (CoolSeasonStart CoolSeasonEnd DayOfYear prev : ℚ) : ℚ :=
  if CoolSeasonEnd > CoolSeasonStart then
    (if CoolSeasonStart ≤ DayOfYear ∧ DayOfYear < CoolSeasonEnd then 1 else 0)
  else if CoolSeasonStart > CoolSeasonEnd then
    (if CoolSeasonStart ≤ DayOfYear ∨ DayOfYear < CoolSeasonEnd then 1 else 0)
  else prev

/-- The aPMV cooling-setpoint transform computed by `Program_Line_11` of
every generated `apply_aPMV_<suffix>` program (source line 477):
`set aPMV_C_SP_noTol_<suffix> =
   pmv_cooling_sp_<suffix>/(1+adap_coeff_<suffix>*pmv_cooling_sp_<suffix>)`. -/
def aPMV_C_SP_noTol (pmv_cooling_sp adap_coeff : ℚ) : ℚ :=
  pmv_cooling_sp / (1 + adap_coeff * pmv_cooling_sp)

/-! ## Auxiliary definitions used by the theorem statements -/

/-- One step of the SpaceList expansion of `resolveOne` (source lines
114-130): the target it appends when the member space is known, the warning
it issues when it is not. -/
def spaceListStep (b : Building) (p : People) (s : String) :
    List Target × List Warning :=
  match space_to_zone b (py_upper_strip s) with
  | some parent_zone =>
      ([{ df_key := s ++ " " ++ p.Name,
          ems_suffix := _sanitize_ems_name (s ++ "_" ++ p.Name),
          sensor_key := s ++ " " ++ p.Name,
          zone_name := parent_zone }], [])
  | none => ([], [Warning.spaceNotFound s p.container])

/-- The target produced for one ZoneList member (source lines 136-144). -/
def zoneListTarget (p : People) (z : String) : Target :=
  { df_key := z ++ " " ++ p.Name,
    ems_suffix := _sanitize_ems_name (z ++ "_" ++ p.Name),
    sensor_key := z ++ " " ++ p.Name,
    zone_name := z }

/-- Model with two People objects referencing the same Zone container: both
fall into the Zone-direct branch, whose `ems_suffix` is the sanitized
container name alone. -/
def bC1 : Building := { zones := ["Z"], people := [⟨"P1", "Z"⟩, ⟨"P2", "Z"⟩] }

/-- Model with two People objects in distinct zones (distinct suffixes). -/
def bC1w : Building :=
  { zones := ["Z1", "Z2"], people := [⟨"P", "Z1"⟩, ⟨"Q", "Z2"⟩] }

/-- Model whose People container name matches both a SpaceList and a
ZoneList: the resolver must prefer the SpaceList. -/
def bC4 : Building :=
  { zonelists := [⟨"ZL", ["Z1"]⟩], spacelists := [⟨"ZL", ["S1"]⟩],
    spaces := [⟨"S1", "Z9"⟩], people := [⟨"P", "ZL"⟩] }

/-- The space-list-to-zone chaining model of the spec: SpaceList "SL" with
sole member Space "S1" owned by Zone "Z9", People "Q" assigned to "SL". -/
def bC5 : Building :=
  { zones := ["Z9"], spaces := [⟨"S1", "Z9"⟩],
    spacelists := [⟨"SL", ["S1"]⟩], people := [⟨"Q", "SL"⟩] }

/-- Model with a People container that names nothing in the model: the Zone
objects contain only "REAL" but the container says "GHOST". -/
def bC3 : Building := { zones := ["REAL"], people := [⟨"P", "GHOST"⟩] }

/-- The per-zone "Schedule Value" output requests (source lines 552-555)
that `_add_apmv_outputs` creates unconditionally on every invocation: one
per reporting frequency, schedule kind, and unique target zone. -/
def schedule_value_requests (building : Building) (args : ApmvArgs) :
    List OutputVariable :=
  args.outputs_freq.flatMap (fun freq =>
    ["PMV_H_SP", "PMV_C_SP"].flatMap (fun i =>
      (py_list_set ((_resolve_targets building).1.map Target.zone_name)).map
        (fun zone => ⟨i ++ "_" ++ zone, "Schedule Value", py_capitalize freq⟩)))

/-- Minimal model used to exhibit the non-idempotence of the augmentation. -/
def bC2 : Building := { zones := ["Z"], people := [⟨"P", "Z"⟩] }

/-- The `existing_tc_thermostats` snapshot dict of `_ensure_infrastructure`
(source lines 287-289), as a lookup on a building state. -/
def tc_lookup (b : Building) (k : String) : Option TCThermostat :=
  lookupLast (b.tcThermostats.map (fun t => (pyUpper t.Zone_or_ZoneList_Name, t))) k

/-- The `existing_thermostats` snapshot dict (source lines 283-285). -/
def std_lookup (b : Building) (k : String) : Option ZCThermostat :=
  lookupLast (b.thermostats.map (fun t => (pyUpper t.Zone_or_ZoneList_Name, t))) k

/-- The thermal-comfort thermostat that the snapshot dict designates for
key `k` exists and already points at a Fanger dual setpoint. -/
def fanger_tc_at (b : Building) (k : String) : Prop :=
  ∃ t, tc_lookup b k = some t ∧
    t.Thermal_Comfort_Control_1_Object_Type =
      "ThermostatSetpoint:ThermalComfort:Fanger:DualSetpoint"

/-- The first Fanger dual-setpoint object named for zone `z` exists and its
schedule fields point at the zone schedules. -/
def fanger_obj_at (b : Building) (z : String) : Prop :=
  ∃ f, b.fangerObjs.find? (fun x => x.Name = "Fanger Setpoint " ++ z) = some f ∧
    f.Fanger_Thermal_Comfort_Heating_Schedule_Name = "PMV_H_SP_" ++ z ∧
    f.Fanger_Thermal_Comfort_Cooling_Schedule_Name = "PMV_C_SP_" ++ z

/-- The names of the Output:Variable requests present at reporting frequency
(the current_outputs snapshot of the per-frequency loop, source lines
546-549). -/
def current_outputs (b : Building) (freq : String) : List String :=
  (b.outputVariables.filter
    (fun o => o.Reporting_Frequency = py_capitalize freq)).map
    (fun o => o.Variable_Name)

/-- The per-frequency batch of unconditioned "Schedule Value" requests
(source lines 552-555). -/
def sched_for (uz : List String) (freq : String) : List OutputVariable :=
  ["PMV_H_SP", "PMV_C_SP"].flatMap (fun i =>
    uz.map (fun zone => ⟨i ++ "_" ++ zone, "Schedule Value", py_capitalize freq⟩))

/-! ## Generic helper lemmas -/

theorem lookupLast_eq_find?_reverse {α : Type} (l : List (String × α)) (k : String) :
    lookupLast l k = (l.reverse.find? (fun p => p.1 = k)).map Prod.snd := by
  unfold lookupLast
  induction l using List.list_reverse_induction with
  | base => rfl
  | ind l e ih =>
      rw [List.foldl_append, List.reverse_append]
      simp only [List.foldl_cons, List.foldl_nil, List.find?_cons]
      by_cases h : e.1 = k
      · simp [h]
      · simp [h, ih]

theorem foldl_pair_append {α β γ : Type} (f : α → List β × List γ) (l : List α)
    (acc : List β × List γ) :
    l.foldl (fun acc p => (acc.1 ++ (f p).1, acc.2 ++ (f p).2)) acc =
      (acc.1 ++ l.flatMap (fun p => (f p).1), acc.2 ++ l.flatMap (fun p => (f p).2)) := by
  induction l generalizing acc with
  | nil => simp
  | cons x xs ih => simp [ih, List.flatMap_cons, List.append_assoc]

/-- `_resolve_targets` is the concatenation, over the People objects in file
order, of the per-object results. -/
theorem resolve_targets_eq_flatMap (b : Building) :
    _resolve_targets b =
      (b.people.flatMap (fun p => (resolveOne b p).1),
       b.people.flatMap (fun p => (resolveOne b p).2)) := by
  unfold _resolve_targets
  have := foldl_pair_append (fun p => resolveOne b p) b.people ([], [])
  simpa using this

/-- The SpaceList branch of `resolveOne`, written as flat maps over the
member spaces. -/
theorem spacelist_fold_eq (step : String → List Target × List Warning)
    (items : List String) :
    items.foldl (fun acc s => (acc.1 ++ (step s).1, acc.2 ++ (step s).2)) ([], []) =
      (items.flatMap (fun s => (step s).1), items.flatMap (fun s => (step s).2)) := by
  simpa using foldl_pair_append step items ([], [])

theorem sanitize_append (a b : String) :
    _sanitize_ems_name (a ++ b) = _sanitize_ems_name a ++ _sanitize_ems_name b := by
  apply String.ext
  simp [_sanitize_ems_name, String.data_append]

theorem sanitize_space_eq_underscore (a b : String) :
    _sanitize_ems_name (a ++ " " ++ b) = _sanitize_ems_name (a ++ "_" ++ b) := by
  rw [sanitize_append, sanitize_append, sanitize_append, sanitize_append]
  rfl

/-! ## Branch characterizations of the resolver -/

theorem resolveOne_of_empty (b : Building) (p : People) (h : p.container = "") :
    resolveOne b p = ([], []) := by
  simp [resolveOne, h]

theorem resolveOne_of_spacelist (b : Building) (p : People) (sl : SpaceList)
    (hc : p.container ≠ "")
    (h : space_lists b (py_upper_strip p.container) = some sl) :
    resolveOne b p =
      ((get_items_from_list sl.spaceNames).flatMap (fun s => (spaceListStep b p s).1),
       (get_items_from_list sl.spaceNames).flatMap (fun s => (spaceListStep b p s).2)) := by
  unfold resolveOne
  rw [if_neg hc]
  simp only [h]
  have hfun :
      (fun (acc : List Target × List Warning) s =>
        match space_to_zone b (py_upper_strip s) with
        | some parent_zone =>
            (acc.1 ++ [{ df_key := s ++ " " ++ p.Name,
                         ems_suffix := _sanitize_ems_name (s ++ "_" ++ p.Name),
                         sensor_key := s ++ " " ++ p.Name,
                         zone_name := parent_zone }], acc.2)
        | none => (acc.1, acc.2 ++ [Warning.spaceNotFound s p.container])) =
      (fun acc s => (acc.1 ++ (spaceListStep b p s).1, acc.2 ++ (spaceListStep b p s).2)) := by
    funext acc s
    unfold spaceListStep
    cases hz : space_to_zone b (py_upper_strip s) <;> simp
  rw [hfun, spacelist_fold_eq]

theorem resolveOne_of_zonelist (b : Building) (p : People) (zl : ZoneList)
    (hc : p.container ≠ "")
    (hsl : space_lists b (py_upper_strip p.container) = none)
    (h : zone_lists b (py_upper_strip p.container) = some zl) :
    resolveOne b p =
      ((get_items_from_list zl.zoneNames).map (zoneListTarget p), []) := by
  unfold resolveOne
  rw [if_neg hc]
  simp only [hsl, h]
  rfl

theorem resolveOne_of_space (b : Building) (p : People) (z : String)
    (hc : p.container ≠ "")
    (hsl : space_lists b (py_upper_strip p.container) = none)
    (hzl : zone_lists b (py_upper_strip p.container) = none)
    (h : space_to_zone b (py_upper_strip p.container) = some z) :
    resolveOne b p =
      ([{ df_key := p.container ++ " " ++ p.Name,
          ems_suffix := _sanitize_ems_name (p.container ++ "_" ++ p.Name),
          sensor_key := p.container ++ " " ++ p.Name,
          zone_name := z }], []) := by
  unfold resolveOne
  rw [if_neg hc]
  simp only [hsl, hzl, h]

theorem resolveOne_of_fallback (b : Building) (p : People)
    (hc : p.container ≠ "")
    (hsl : space_lists b (py_upper_strip p.container) = none)
    (hzl : zone_lists b (py_upper_strip p.container) = none)
    (h : space_to_zone b (py_upper_strip p.container) = none) :
    resolveOne b p =
      ([{ df_key := p.container,
          ems_suffix := _sanitize_ems_name p.container,
          sensor_key := p.Name,
          zone_name := p.container }], []) := by
  unfold resolveOne
  rw [if_neg hc]
  simp only [hsl, hzl, h]

/-- Every emitted target's `ems_suffix` is the sanitization of its
`df_key` (for the compound keys, sanitizing the space-separated key and the
underscore-joined key coincide). -/
theorem ems_suffix_eq_sanitize_df_key (b : Building) :
    ∀ t ∈ (_resolve_targets b).1, t.ems_suffix = _sanitize_ems_name t.df_key := by
  intro t ht
  rw [resolve_targets_eq_flatMap] at ht
  simp only [List.mem_flatMap] at ht
  obtain ⟨p, hp, ht⟩ := ht
  by_cases hc : p.container = ""
  · rw [resolveOne_of_empty b p hc] at ht
    simp at ht
  cases hsl : space_lists b (py_upper_strip p.container) with
  | some sl =>
      rw [resolveOne_of_spacelist b p sl hc hsl] at ht
      simp only [List.mem_flatMap] at ht
      obtain ⟨s, hs, ht⟩ := ht
      unfold spaceListStep at ht
      cases hz : space_to_zone b (py_upper_strip s) with
      | some z =>
          rw [hz] at ht
          simp at ht
          rw [ht]
          exact (sanitize_space_eq_underscore s p.Name).symm
      | none => rw [hz] at ht; simp at ht
  | none =>
    cases hzl : zone_lists b (py_upper_strip p.container) with
    | some zl =>
        rw [resolveOne_of_zonelist b p zl hc hsl hzl] at ht
        simp only [List.mem_map] at ht
        obtain ⟨z, hz, ht⟩ := ht
        rw [← ht]
        exact (sanitize_space_eq_underscore z p.Name).symm
    | none =>
      cases hz : space_to_zone b (py_upper_strip p.container) with
      | some z =>
          rw [resolveOne_of_space b p z hc hsl hzl hz] at ht
          simp at ht
          rw [ht]
          exact (sanitize_space_eq_underscore p.container p.Name).symm
      | none =>
          rw [resolveOne_of_fallback b p hc hsl hzl hz] at ht
          simp at ht
          rw [ht]

/-! ## C1 -/

/-- C1 counterexample: in `bC1` two People objects reference the same
container `"Z"`; both resolve through the Zone-direct branch and produce the
identical `ems_suffix` `"Z"`, so the suffixes are not pairwise distinct. -/
theorem C1_counterexample :
    bC1.people.map People.container = ["Z", "Z"] ∧
    (_resolve_targets bC1).1.map Target.ems_suffix = ["Z", "Z"] ∧
    ¬ ((_resolve_targets bC1).1.map Target.ems_suffix).Nodup := by
  refine ⟨rfl, by decide, by decide⟩

/-- C1 (amended): every target's `ems_suffix` equals the sanitization of its
`df_key`, so the `ems_suffix` values are pairwise distinct whenever the
sanitized `df_key`s are; they are not distinct in general (two People
objects sharing a Zone container, or sanitization collisions, give
duplicates). -/
theorem C1_suffixes_distinct_iff_sanitized_keys (b : Building) :
    (∀ t ∈ (_resolve_targets b).1, t.ems_suffix = _sanitize_ems_name t.df_key) ∧
    (((_resolve_targets b).1.map (fun t => _sanitize_ems_name t.df_key)).Nodup →
      ((_resolve_targets b).1.map Target.ems_suffix).Nodup) := by
  refine ⟨ems_suffix_eq_sanitize_df_key b, fun h => ?_⟩
  have heq : (_resolve_targets b).1.map Target.ems_suffix =
      (_resolve_targets b).1.map (fun t => _sanitize_ems_name t.df_key) :=
    List.map_congr_left (ems_suffix_eq_sanitize_df_key b)
  rw [heq]
  exact h

/-- C1 witness: a model with two distinct sanitized keys, on which the
amended theorem yields distinct suffixes. -/
theorem C1_witness : ((_resolve_targets bC1w).1.map Target.ems_suffix).Nodup :=
  (C1_suffixes_distinct_iff_sanitized_keys bC1w).2 (by decide)

/-! ## C6 -/

/-- C6: the generated `set_cooling_season` program classifies day-of-year
`d` as cooling season (value 1) iff `start ≤ d < end` when `end > start`,
and iff `d ≥ start ∨ d < end` in the wrap-around case `start > end`;
for start 330 / end 90, days 10 and 340 are in season and day 200 is not. -/
theorem C6_cooling_season_classification :
    (∀ cs ce d prev : ℚ, ce > cs →
      (set_cooling_season cs ce d prev = 1 ↔ cs ≤ d ∧ d < ce)) ∧
    (∀ cs ce d prev : ℚ, cs > ce →
      (set_cooling_season cs ce d prev = 1 ↔ cs ≤ d ∨ d < ce)) ∧
    set_cooling_season 330 90 10 0 = 1 ∧
    set_cooling_season 330 90 340 0 = 1 ∧
    set_cooling_season 330 90 200 0 = 0 := by
  refine ⟨?_, ?_, ?_, ?_, ?_⟩
  · intro cs ce d prev h
    by_cases hc : cs ≤ d ∧ d < ce <;> simp [set_cooling_season, h, hc]
  · intro cs ce d prev h
    have h1 : ¬ (ce > cs) := not_lt.mpr (le_of_lt h)
    by_cases hc : cs ≤ d ∨ d < ce <;> simp [set_cooling_season, h1, h, hc]
  · norm_num [set_cooling_season]
  · norm_num [set_cooling_season]
  · norm_num [set_cooling_season]

/-- C6 witness: the wrap-around characterization applied at the concrete
bounds 330/90 and day 340. -/
theorem C6_witness : set_cooling_season (330 : ℚ) 90 340 0 = 1 :=
  (C6_cooling_season_classification.2.1 330 90 340 0 (by norm_num)).mpr
    (by norm_num)

/-! ## C9 -/

/-- C9 counterexample: at base cooling setpoint 0.5, the transform gives
`0.5/1.1465 ≈ 0.43611` for λ = 0.293 and `0.5/0.8535 ≈ 0.58582` for
λ = −0.293, which round to 0.436 and 0.586 at 3 significant figures, not to
the 0.435 and 0.581 the claim states. -/
theorem C9_counterexample :
    ¬ (|aPMV_C_SP_noTol (1/2) (293/1000) - 435/1000| ≤ 1/2000) ∧
    ¬ (|aPMV_C_SP_noTol (1/2) (-(293/1000)) - 581/1000| ≤ 1/2000) := by
  constructor <;> norm_num [aPMV_C_SP_noTol, abs_le]

/-- C9 (amended): the per-target program computes
`aPMV_C_SP_noTol = pmv_cooling_sp / (1 + adap_coeff * pmv_cooling_sp)`; at a
base cooling setpoint of 0.5 and λ ∈ {0, 0.293, −0.293} the results are
0.5, 0.436 and 0.586 to 3 significant figures. -/
theorem C9_transform_values :
    (∀ sp lam : ℚ, aPMV_C_SP_noTol sp lam = sp / (1 + lam * sp)) ∧
    aPMV_C_SP_noTol (1/2) 0 = 1/2 ∧
    |aPMV_C_SP_noTol (1/2) (293/1000) - 436/1000| ≤ 1/2000 ∧
    |aPMV_C_SP_noTol (1/2) (-(293/1000)) - 586/1000| ≤ 1/2000 := by
  refine ⟨fun sp lam => rfl, by norm_num [aPMV_C_SP_noTol], ?_, ?_⟩ <;>
    norm_num [aPMV_C_SP_noTol, abs_le]

/-! ## C10 -/

/-- C10: a People object whose container reference is blank is skipped
entirely: it contributes no target and no warning, and deleting it from the
model leaves the resolver output unchanged. -/
theorem C10_empty_container_skipped :
    (∀ (b : Building) (p : People), p.container = "" → resolveOne b p = ([], [])) ∧
    (∀ (b : Building) (l1 l2 : List People) (p : People), p.container = "" →
      b.people = l1 ++ p :: l2 →
      _resolve_targets b = _resolve_targets { b with people := l1 ++ l2 }) := by
  constructor
  · exact fun b p h => resolveOne_of_empty b p h
  · intro b l1 l2 p hp hb
    have hres : ∀ q, resolveOne { b with people := l1 ++ l2 } q = resolveOne b q :=
      fun q => rfl
    rw [resolve_targets_eq_flatMap, resolve_targets_eq_flatMap]
    simp only [hres, hb]
    simp [List.flatMap_append, List.flatMap_cons, resolveOne_of_empty b p hp]

/-- C10 witness: deleting a blank-container People object from a concrete
model leaves the resolver output unchanged. -/
theorem C10_witness :
    _resolve_targets { zones := ["Z"], people := [⟨"P", ""⟩, ⟨"Q", "Z"⟩] } =
      _resolve_targets
        { ({ zones := ["Z"], people := [⟨"P", ""⟩, ⟨"Q", "Z"⟩] } : Building) with
          people := [] ++ [(⟨"Q", "Z"⟩ : People)] } :=
  C10_empty_container_skipped.2 _ [] [⟨"Q", "Z"⟩] ⟨"P", ""⟩ rfl rfl

/-! ## Further helper lemmas -/

theorem lookupLast_mem {α : Type} {l : List (String × α)} {k : String} {v : α}
    (h : lookupLast l k = some v) : (k, v) ∈ l := by
  rw [lookupLast_eq_find?_reverse] at h
  obtain ⟨pr, hf, hv⟩ := Option.map_eq_some'.mp h
  have hk : pr.1 = k := by simpa using List.find?_some hf
  have hmem : pr ∈ l.reverse := List.mem_of_find?_eq_some hf
  rw [List.mem_reverse] at hmem
  have hpr : pr = (k, v) := by
    cases pr
    simp_all
  rwa [hpr] at hmem

theorem string_append_cancel_right {a b c : String} (h : a ++ c = b ++ c) :
    a = b := by
  apply String.ext
  have hd := congrArg String.data h
  rw [String.data_append, String.data_append] at hd
  exact List.append_cancel_right hd

theorem mem_of_get_items {a : String} {l : List String}
    (h : a ∈ get_items_from_list l) : a ∈ l := by
  unfold get_items_from_list at h
  exact List.take_subset 499 l ((List.takeWhile_sublist _).mem h)

/-! ## C4 -/

/-- C4: for a non-blank container name, the resolver checks SpaceList, then
ZoneList, then Space, then falls back to Zone, and only the first matching
category produces targets (the SpaceList clause holds regardless of which
other categories also match); a name matching none of the four categories
is still emitted as a Zone-fallback target with `df_key` the container name
and `sensor_key` the People object's own name. -/
theorem C4_priority_order_and_fallback (b : Building) (p : People)
    (hc : p.container ≠ "") :
    (∀ sl, space_lists b (py_upper_strip p.container) = some sl →
      resolveOne b p =
        ((get_items_from_list sl.spaceNames).flatMap (fun s => (spaceListStep b p s).1),
         (get_items_from_list sl.spaceNames).flatMap (fun s => (spaceListStep b p s).2))) ∧
    (space_lists b (py_upper_strip p.container) = none →
      ∀ zl, zone_lists b (py_upper_strip p.container) = some zl →
        resolveOne b p = ((get_items_from_list zl.zoneNames).map (zoneListTarget p), [])) ∧
    (space_lists b (py_upper_strip p.container) = none →
      zone_lists b (py_upper_strip p.container) = none →
      ∀ z, space_to_zone b (py_upper_strip p.container) = some z →
        resolveOne b p =
          ([{ df_key := p.container ++ " " ++ p.Name,
              ems_suffix := _sanitize_ems_name (p.container ++ "_" ++ p.Name),
              sensor_key := p.container ++ " " ++ p.Name,
              zone_name := z }], [])) ∧
    (space_lists b (py_upper_strip p.container) = none →
      zone_lists b (py_upper_strip p.container) = none →
      space_to_zone b (py_upper_strip p.container) = none →
      resolveOne b p =
        ([{ df_key := p.container,
            ems_suffix := _sanitize_ems_name p.container,
            sensor_key := p.Name,
            zone_name := p.container }], [])) :=
  ⟨fun sl h => resolveOne_of_spacelist b p sl hc h,
   fun hsl zl h => resolveOne_of_zonelist b p zl hc hsl h,
   fun hsl hzl z h => resolveOne_of_space b p z hc hsl hzl h,
   fun hsl hzl h => resolveOne_of_fallback b p hc hsl hzl h⟩

/-- C4 witness: in `bC4` the container name "ZL" matches both a SpaceList
and a ZoneList; the SpaceList wins and the expansion goes through the
spaces. -/
theorem C4_witness :
    resolveOne bC4 ⟨"P", "ZL"⟩ =
      ([{ df_key := "S1 P", ems_suffix := "S1_P", sensor_key := "S1 P",
          zone_name := "Z9" }], []) := by
  have h := (C4_priority_order_and_fallback bC4 ⟨"P", "ZL"⟩ (by decide)).1
    ⟨"ZL", ["S1"]⟩ (by decide)
  rw [h]
  decide

/-! ## C5 -/

/-- C5: the SpaceList-to-Zone chaining of the spec example (`bC5` yields
exactly one target with `df_key` "S1 Q" and `zone_name` "Z9"); and in
general a SpaceList member with no SPACE definition contributes a warning
and no target. -/
theorem C5_spacelist_chaining :
    _resolve_targets bC5 =
      ([{ df_key := "S1 Q", ems_suffix := "S1_Q", sensor_key := "S1 Q",
          zone_name := "Z9" }], []) ∧
    (∀ (b : Building) (p : People) (sl : SpaceList) (s : String),
      p.container ≠ "" →
      space_lists b (py_upper_strip p.container) = some sl →
      s ∈ get_items_from_list sl.spaceNames →
      space_to_zone b (py_upper_strip s) = none →
      Warning.spaceNotFound s p.container ∈ (resolveOne b p).2 ∧
      ∀ t ∈ (resolveOne b p).1, t.df_key ≠ s ++ " " ++ p.Name) := by
  constructor
  · decide
  · intro b p sl s hc hsl hs hz
    rw [resolveOne_of_spacelist b p sl hc hsl]
    constructor
    · simp only [List.mem_flatMap]
      exact ⟨s, hs, by simp [spaceListStep, hz]⟩
    · intro t ht heq
      simp only [List.mem_flatMap] at ht
      obtain ⟨s', hs', ht⟩ := ht
      unfold spaceListStep at ht
      cases hz' : space_to_zone b (py_upper_strip s') with
      | none => rw [hz'] at ht; simp at ht
      | some z' =>
          rw [hz'] at ht
          simp at ht
          rw [ht] at heq
          simp only at heq
          have hss : s' = s := by
            have h1 : s' ++ " " = s ++ " " :=
              string_append_cancel_right heq
            exact string_append_cancel_right h1
          rw [hss] at hz'
          rw [hz'] at hz
          exact Option.noConfusion hz

/-- C5 witness: a SpaceList with one resolvable and one ghost member
produces one target and one warning. -/
theorem C5_witness :
    Warning.spaceNotFound "S2" "SL" ∈
      (resolveOne
        { zones := ["Z9"], spaces := [⟨"S1", "Z9"⟩],
          spacelists := [⟨"SL", ["S1", "S2"]⟩], people := [] }
        ⟨"Q", "SL"⟩).2 :=
  ((C5_spacelist_chaining.2
    { zones := ["Z9"], spaces := [⟨"S1", "Z9"⟩],
      spacelists := [⟨"SL", ["S1", "S2"]⟩], people := [] }
    ⟨"Q", "SL"⟩ ⟨"SL", ["S1", "S2"]⟩ "S2"
    (by decide) (by decide) (by decide) (by decide)).1)

/-! ## C3 -/

/-- C3 counterexample: in `bC3` the container "GHOST" names no Zone object
(`bC3.zones = ["REAL"]`), yet a target with `zone_name = "GHOST"` is
emitted and no warning (and no error) is produced. -/
theorem C3_counterexample :
    (_resolve_targets bC3).1.map Target.zone_name = ["GHOST"] ∧
    "GHOST" ∉ bC3.zones ∧
    (_resolve_targets bC3).2 = [] := by
  refine ⟨by decide, by decide, by decide⟩

/-- C3 (amended): the resolver never validates `zone_name` against the
model's ZONE objects. Every target's `zone_name` is copied from a SPACE
object's `Zone_Name`, from a ZoneList member field, or verbatim from some
People object's container reference; the only warnings ever issued are the
SpaceList missing-member ones, so an unknown container name is silently
emitted as a fallback target rather than surfaced as an error. -/
theorem C3_zone_name_unvalidated (b : Building) :
    (∀ t ∈ (_resolve_targets b).1,
      (∃ s ∈ b.spaces, t.zone_name = s.Zone_Name) ∨
      (∃ zl ∈ b.zonelists, t.zone_name ∈ zl.zoneNames) ∨
      (∃ p ∈ b.people, t.zone_name = p.container)) ∧
    (∀ w ∈ (_resolve_targets b).2, ∃ s c, w = Warning.spaceNotFound s c) := by
  constructor
  · intro t ht
    rw [resolve_targets_eq_flatMap] at ht
    simp only [List.mem_flatMap] at ht
    obtain ⟨p, hp, ht⟩ := ht
    by_cases hc : p.container = ""
    · rw [resolveOne_of_empty b p hc] at ht; simp at ht
    cases hsl : space_lists b (py_upper_strip p.container) with
    | some sl =>
        rw [resolveOne_of_spacelist b p sl hc hsl] at ht
        simp only [List.mem_flatMap] at ht
        obtain ⟨s, hs, ht⟩ := ht
        unfold spaceListStep at ht
        cases hz : space_to_zone b (py_upper_strip s) with
        | none => rw [hz] at ht; simp at ht
        | some z =>
            rw [hz] at ht
            simp at ht
            left
            unfold space_to_zone at hz
            have := lookupLast_mem hz
            simp only [List.mem_map] at this
            obtain ⟨sp, hsp, heq⟩ := this
            exact ⟨sp, hsp, by rw [ht]; exact congrArg Prod.snd heq.symm⟩
    | none =>
      cases hzl : zone_lists b (py_upper_strip p.container) with
      | some zl =>
          rw [resolveOne_of_zonelist b p zl hc hsl hzl] at ht
          simp only [List.mem_map] at ht
          obtain ⟨z, hz, ht⟩ := ht
          right; left
          unfold zone_lists at hzl
          have := lookupLast_mem hzl
          simp only [List.mem_map] at this
          obtain ⟨zlo, hzlo, hzeq⟩ := this
          have hzl2 : zl ∈ b.zonelists := by
            have h2 := congrArg Prod.snd hzeq
            simp at h2
            rwa [h2] at hzlo
          refine ⟨zl, hzl2, ?_⟩
          rw [← ht]
          exact mem_of_get_items hz
      | none =>
        cases hz : space_to_zone b (py_upper_strip p.container) with
        | some z =>
            rw [resolveOne_of_space b p z hc hsl hzl hz] at ht
            simp at ht
            left
            unfold space_to_zone at hz
            have := lookupLast_mem hz
            simp only [List.mem_map] at this
            obtain ⟨sp, hsp, heq⟩ := this
            exact ⟨sp, hsp, by rw [ht]; exact congrArg Prod.snd heq.symm⟩
        | none =>
            rw [resolveOne_of_fallback b p hc hsl hzl hz] at ht
            simp at ht
            right; right
            exact ⟨p, hp, by rw [ht]⟩
  · intro w hw
    rw [resolve_targets_eq_flatMap] at hw
    simp only [List.mem_flatMap] at hw
    obtain ⟨p, hp, hw⟩ := hw
    by_cases hc : p.container = ""
    · rw [resolveOne_of_empty b p hc] at hw; simp at hw
    cases hsl : space_lists b (py_upper_strip p.container) with
    | some sl =>
        rw [resolveOne_of_spacelist b p sl hc hsl] at hw
        simp only [List.mem_flatMap] at hw
        obtain ⟨s, hs, hw⟩ := hw
        unfold spaceListStep at hw
        cases hz : space_to_zone b (py_upper_strip s) with
        | some z => rw [hz] at hw; simp at hw
        | none =>
            rw [hz] at hw
            simp at hw
            exact ⟨s, p.container, hw⟩
    | none =>
      cases hzl : zone_lists b (py_upper_strip p.container) with
      | some zl =>
          rw [resolveOne_of_zonelist b p zl hc hsl hzl] at hw
          simp at hw
      | none =>
        cases hz : space_to_zone b (py_upper_strip p.container) with
        | some z => rw [resolveOne_of_space b p z hc hsl hzl hz] at hw; simp at hw
        | none => rw [resolveOne_of_fallback b p hc hsl hzl hz] at hw; simp at hw

/-- C3 witness: the provenance statement applied to the ghost target of
`bC3`. -/
theorem C3_witness :
    (∃ s ∈ bC3.spaces, ("GHOST" : String) = s.Zone_Name) ∨
    (∃ zl ∈ bC3.zonelists, ("GHOST" : String) ∈ zl.zoneNames) ∨
    (∃ p ∈ bC3.people, ("GHOST" : String) = p.container) :=
  (C3_zone_name_unvalidated bC3).1 ⟨"GHOST", "GHOST", "P", "GHOST"⟩ (by decide)

/-! ## C7 -/

theorem mem_py_list_set {x : String} {l : List String} :
    x ∈ py_list_set l ↔ x ∈ l := by
  unfold py_list_set
  suffices h : ∀ (l acc : List String),
      x ∈ l.foldl (fun acc k => if acc.contains k then acc else acc ++ [k]) acc ↔
        x ∈ acc ∨ x ∈ l by
    simpa using h l []
  intro l
  induction l with
  | nil => intro acc; simp
  | cons a as ih =>
      intro acc
      simp only [List.foldl_cons]
      by_cases hc : acc.contains a
      · rw [if_pos hc, ih acc]
        have ha : a ∈ acc := by simpa using hc
        constructor
        · rintro (h | h)
          · exact Or.inl h
          · exact Or.inr (List.mem_cons_of_mem a h)
        · rintro (h | h)
          · exact Or.inl h
          · rcases List.mem_cons.mp h with rfl | h
            · exact Or.inl ha
            · exact Or.inr h
      · rw [if_neg hc, ih (acc ++ [a])]
        simp [List.mem_append, List.mem_cons, or_assoc]

/-- C7 counterexample: with resolved targets `["A", "B"]` and a mapping
supplying only `"A"` for `adap_coeff_cooling`, the target `"B"` receives the
explicit default (7) but no warning is produced at all. -/
theorem C7_counterexample :
    (generate_df_from_args ["A", "B"] ["A_sfx", "B_sfx"]
        (.mapping [("A", 1)]) (.scalar 0) (.scalar 0) (.scalar 0)
        (.scalar 0) (.scalar 0) (.scalar 0) (.scalar 0)
        7 0 0 0 0 0 0 0).1.map
      (fun row => (row.1, row.2.adap_coeff_cooling)) = [("A", 1), ("B", 7)] ∧
    (generate_df_from_args ["A", "B"] ["A_sfx", "B_sfx"]
        (.mapping [("A", 1)]) (.scalar 0) (.scalar 0) (.scalar 0)
        (.scalar 0) (.scalar 0) (.scalar 0) (.scalar 0)
        7 0 0 0 0 0 0 0).2 = [] := by
  refine ⟨by decide, by decide⟩

/-- C7 (amended): a scalar is replicated identically on every target row; a
mapping contributes exactly the target keys; the warning output is exactly
determined: no warning when every mapping key is a target, and otherwise the
single warning `keysDropped arg_name dropped`, whose payload `dropped` (the
mapping keys, in first-insertion order, that are not targets) is issued and
lists exactly the unknown keys; a target missing from the mapping receives
the explicit default silently — no warning ever mentions it. -/
theorem C7_scalar_mapping_default_behaviour (names : List String)
    (arg_name : String) (dflt : ℚ) (m : List (String × ℚ)) :
    (∀ v : ℚ, process_arg names (.scalar v) arg_name dflt =
        ((py_list_set names).map (fun k => (k, v)), [])) ∧
    (∀ kv ∈ (process_arg names (.mapping m) arg_name dflt).1,
        kv.1 ∈ py_list_set names) ∧
    ((process_arg names (.mapping m) arg_name dflt).2 =
      if (py_list_set (m.map Prod.fst)).filter (fun k => ¬ names.contains k) = []
      then []
      else [Warning.keysDropped arg_name
        ((py_list_set (m.map Prod.fst)).filter (fun k => ¬ names.contains k))]) ∧
    (∀ x, x ∈ (py_list_set (m.map Prod.fst)).filter
        (fun k => ¬ names.contains k) ↔ (x ∈ m.map Prod.fst ∧ x ∉ names)) ∧
    (∀ k ∈ py_list_set names, lookupLast m k = none →
        (k, dflt) ∈ (process_arg names (.mapping m) arg_name dflt).1 ∧
        ∀ w ∈ (process_arg names (.mapping m) arg_name dflt).2,
          ∀ nm ks, w = Warning.keysDropped nm ks → k ∉ ks) := by
  refine ⟨fun v => rfl, ?_, rfl, ?_, ?_⟩
  · intro kv hkv
    simp only [process_arg, List.mem_map] at hkv
    obtain ⟨k, hk, hkv⟩ := hkv
    rw [← hkv]
    exact hk
  · intro x
    rw [List.mem_filter]
    constructor
    · rintro ⟨h1, h2⟩
      exact ⟨mem_py_list_set.mp h1, by simpa using h2⟩
    · rintro ⟨h1, h2⟩
      exact ⟨mem_py_list_set.mpr h1, by simpa using h2⟩
  · intro k hk hmiss
    constructor
    · simp only [process_arg, List.mem_map]
      exact ⟨k, hk, by simp [series_value, hmiss]⟩
    · intro w hw nm ks hwks hkks
      simp only [process_arg] at hw
      by_cases hd : (py_list_set (m.map Prod.fst)).filter
          (fun k => ¬ names.contains k) = []
      · rw [if_pos hd] at hw
        simp at hw
      · rw [if_neg hd] at hw
        simp only [List.mem_singleton] at hw
        rw [hw] at hwks
        cases hwks
        have := (List.mem_filter.mp hkks).2
        have hkn : k ∈ names := mem_py_list_set.mp hk
        simp at this
        exact this hkn

/-- C7 witness: with targets `["A", "B"]` and mapping `{"A": 1, "X": 2}`,
the missing target `"B"` gets the default and appears in no warning, while
the unknown key `"X"` makes the call issue exactly the warning
`keysDropped "adap_coeff_cooling" ["X"]`. -/
theorem C7_witness :
    (("B" : String), (7 : ℚ)) ∈
      (process_arg ["A", "B"] (.mapping [("A", 1), ("X", 2)])
        "adap_coeff_cooling" 7).1 ∧
    (process_arg ["A", "B"] (.mapping [("A", 1), ("X", 2)])
        "adap_coeff_cooling" 7).2 =
      [Warning.keysDropped "adap_coeff_cooling" ["X"]] :=
  ⟨((C7_scalar_mapping_default_behaviour ["A", "B"] "adap_coeff_cooling" 7
      [("A", 1), ("X", 2)]).2.2.2.2 "B" (by decide) (by decide)).1,
   by
    rw [(C7_scalar_mapping_default_behaviour ["A", "B"] "adap_coeff_cooling" 7
      [("A", 1), ("X", 2)]).2.2.1]
    decide⟩

/-! ## C8 -/

theorem update_fanger_schedules (b : Building) (nm z : String) :
    (_update_fanger_object b nm z).schedules = b.schedules := by
  unfold _update_fanger_object
  split <;> rfl

theorem create_tc_schedules (b : Building) (z : String) :
    (_create_tc_thermostat b z).schedules =
      b.schedules ++
        (if b.schedules.any
            (fun s => s.Name = "Thermal Comfort Control Type Schedule Name " ++ z)
         then [] else [ctrl_schedule z]) := by
  unfold _create_tc_thermostat
  rw [update_fanger_schedules]
  split
  · next h => simp [h]
  · next h => rfl

theorem zone_step_schedules (tc : String → Option TCThermostat)
    (std : String → Option ZCThermostat) (b : Building) (zone : String) :
    ∃ e, (ensure_zone_step tc std b zone).schedules = b.schedules ++ e ∧
      ∀ s ∈ e, ∃ z', s = ctrl_schedule z' := by
  simp only [ensure_zone_step]
  cases htc : tc (pyUpper zone) with
  | some tc_t =>
      simp only [htc]
      rw [update_fanger_schedules]
      split
      · exact ⟨[], by simp, by simp⟩
      · exact ⟨[], by simp, by simp⟩
  | none =>
    simp only [htc]
    cases hstd : std (pyUpper zone) with
    | some t =>
        simp only [hstd]
        rw [create_tc_schedules]
        refine ⟨_, rfl, ?_⟩
        intro s hs
        split at hs
        · simp at hs
        · simp at hs
          exact ⟨zone, hs⟩
    | none =>
        simp only [hstd]
        rw [create_tc_schedules]
        refine ⟨_, rfl, ?_⟩
        intro s hs
        split at hs
        · simp at hs
        · simp at hs
          exact ⟨zone, hs⟩

theorem fold_zone_step_schedules (tc : String → Option TCThermostat)
    (std : String → Option ZCThermostat) (zones : List String) :
    ∀ b : Building,
      ∃ e, (zones.foldl (ensure_zone_step tc std) b).schedules = b.schedules ++ e ∧
        ∀ s ∈ e, ∃ z', s = ctrl_schedule z' := by
  induction zones with
  | nil => exact fun b => ⟨[], by simp, by simp⟩
  | cons z zs ih =>
      intro b
      obtain ⟨e1, he1, hp1⟩ := zone_step_schedules tc std b z
      obtain ⟨e2, he2, hp2⟩ := ih (ensure_zone_step tc std b z)
      refine ⟨e1 ++ e2, ?_, ?_⟩
      · rw [List.foldl_cons, he2, he1, List.append_assoc]
      · intro s hs
        rcases List.mem_append.mp hs with h | h
        · exact hp1 s h
        · exact hp2 s h

theorem ensure_infra_schedules (b : Building) (zones : List String) :
    ∃ extra : List ScheduleCompact,
      (_ensure_infrastructure b zones).schedules =
        b.schedules ++ pmv_schedule_batch (b.schedules.map (·.Name)) zones ++ extra ∧
      ∀ s ∈ extra, ∃ z', s = ctrl_schedule z' := by
  unfold _ensure_infrastructure
  exact fold_zone_step_schedules _ _ zones _

theorem pmv_ne_ctrl (i z z' : String) (hi : i = "PMV_H_SP" ∨ i = "PMV_C_SP") :
    i ++ "_" ++ z ≠ "Thermal Comfort Control Type Schedule Name " ++ z' := by
  intro h
  have hcon := congrArg (fun s => py_startswith s "PMV") h
  simp only at hcon
  rcases hi with rfl | rfl
  · have h1 : py_startswith ("PMV_H_SP" ++ "_" ++ z) "PMV" = true := rfl
    have h2 : py_startswith
        ("Thermal Comfort Control Type Schedule Name " ++ z') "PMV" = false := rfl
    rw [h1, h2] at hcon
    exact Bool.noConfusion hcon
  · have h1 : py_startswith ("PMV_C_SP" ++ "_" ++ z) "PMV" = true := rfl
    have h2 : py_startswith
        ("Thermal Comfort Control Type Schedule Name " ++ z') "PMV" = false := rfl
    rw [h1, h2] at hcon
    exact Bool.noConfusion hcon

/-- C8 counterexample: for a fresh model and target zone "Z", both created
setpoint schedules carry the constant value line `Until: 24:00,1`, i.e.
constant 1 — not −0.5 (heating) and +0.5 (cooling) as claimed. -/
theorem C8_counterexample :
    ((_ensure_infrastructure ({} : Building) ["Z"]).schedules.map
        (fun s => (s.Name, s.Field_3))).take 2 =
      [("PMV_H_SP_Z", "Until: 24:00,1"), ("PMV_C_SP_Z", "Until: 24:00,1")] ∧
    ("Until: 24:00,1" : String) ≠ "Until: 24:00,-0.5" ∧
    ("Until: 24:00,1" : String) ≠ "Until: 24:00,0.5" := by
  refine ⟨by decide, by decide, by decide⟩

/-- C8 (amended): for every zone in the unique-zones set and each of the two
deterministic names `PMV_H_SP_<zone>` / `PMV_C_SP_<zone>`, the Infrastructure
Ensurer creates the schedule only when no schedule of that exact name
already exists, and the created schedule holds the constant value 1 (line
`Until: 24:00,1`) for both the heating and the cooling schedule (the values
are placeholders, overridden at runtime through the EMS actuators). -/
theorem C8_schedule_creation (b : Building) (zones : List String) (z : String)
    (hz : z ∈ zones) (i : String) (hi : i = "PMV_H_SP" ∨ i = "PMV_C_SP") :
    (¬ (b.schedules.map (·.Name)).contains (i ++ "_" ++ z) →
      pmv_schedule (i ++ "_" ++ z) ∈ (_ensure_infrastructure b zones).schedules) ∧
    ((b.schedules.map (·.Name)).contains (i ++ "_" ++ z) →
      ((_ensure_infrastructure b zones).schedules.filter
          (fun s => s.Name = i ++ "_" ++ z)).length =
        (b.schedules.filter (fun s => s.Name = i ++ "_" ++ z)).length) := by
  obtain ⟨extra, he, hp⟩ := ensure_infra_schedules b zones
  constructor
  · intro hnc
    rw [he]
    refine List.mem_append.mpr (Or.inl (List.mem_append.mpr (Or.inr ?_)))
    unfold pmv_schedule_batch
    refine List.mem_flatMap.mpr ⟨i, ?_, ?_⟩
    · rcases hi with rfl | rfl <;> simp
    · refine List.mem_filterMap.mpr ⟨z, hz, ?_⟩
      simp only
      rw [if_neg hnc]
  · intro hc
    rw [he, List.filter_append, List.filter_append, List.length_append,
      List.length_append]
    have hbatch : (pmv_schedule_batch (b.schedules.map (·.Name)) zones).filter
        (fun s => s.Name = i ++ "_" ++ z) = [] := by
      rw [List.filter_eq_nil_iff]
      intro a ha
      unfold pmv_schedule_batch at ha
      obtain ⟨i', hi', ha⟩ := List.mem_flatMap.mp ha
      obtain ⟨z', hz', ha⟩ := List.mem_filterMap.mp ha
      simp only at ha
      by_cases hg : (b.schedules.map (·.Name)).contains (i' ++ "_" ++ z')
      · rw [if_pos hg] at ha
        exact Option.noConfusion ha
      · rw [if_neg hg] at ha
        have ha2 : pmv_schedule (i' ++ "_" ++ z') = a := Option.some.inj ha
        simp only [decide_eq_true_eq]
        intro heq
        rw [← ha2] at heq
        simp only [pmv_schedule] at heq
        rw [heq] at hg
        exact hg hc
    have hextra : extra.filter (fun s => s.Name = i ++ "_" ++ z) = [] := by
      rw [List.filter_eq_nil_iff]
      intro a ha
      obtain ⟨z', hz'⟩ := hp a ha
      rw [hz']
      simp only [ctrl_schedule, decide_eq_true_eq]
      intro hcc
      exact pmv_ne_ctrl i z z' hi hcc.symm
    rw [hbatch, hextra]
    simp

/-- C8 witness: in a fresh model the heating schedule for zone "Z" is
created with the constant-1 value line. -/
theorem C8_witness :
    pmv_schedule "PMV_H_SP_Z" ∈
      (_ensure_infrastructure ({} : Building) ["Z"]).schedules :=
  (C8_schedule_creation ({} : Building) ["Z"] "Z" (by decide) "PMV_H_SP"
    (Or.inl rfl)).1 (by decide)


/-! ## C2: each mutator is a record update on fixed fields -/

theorem update_fanger_eq (b : Building) (nm z : String) :
    _update_fanger_object b nm z =
      { b with fangerObjs := (_update_fanger_object b nm z).fangerObjs } := by
  unfold _update_fanger_object
  split <;> rfl

theorem create_tc_eq (b : Building) (z : String) :
    _create_tc_thermostat b z =
      { b with schedules := (_create_tc_thermostat b z).schedules,
               tcThermostats := (_create_tc_thermostat b z).tcThermostats,
               fangerObjs := (_create_tc_thermostat b z).fangerObjs } := by
  unfold _create_tc_thermostat
  rw [update_fanger_eq]
  split <;> rfl

theorem zone_step_eq (tc : String → Option TCThermostat)
    (std : String → Option ZCThermostat) (b : Building) (zone : String) :
    ensure_zone_step tc std b zone =
      { b with schedules := (ensure_zone_step tc std b zone).schedules,
               thermostats := (ensure_zone_step tc std b zone).thermostats,
               tcThermostats := (ensure_zone_step tc std b zone).tcThermostats,
               fangerObjs := (ensure_zone_step tc std b zone).fangerObjs } := by
  simp only [ensure_zone_step]
  cases htc : tc (pyUpper zone) with
  | some tct =>
      simp only [htc]
      rw [update_fanger_eq]
      split <;> rfl
  | none =>
      simp only [htc]
      cases hstd : std (pyUpper zone) with
      | some t =>
          simp only [hstd]
          rw [create_tc_eq]
      | none =>
          simp only [hstd]
          rw [create_tc_eq]

theorem fold_zone_step_eq (tc : String → Option TCThermostat)
    (std : String → Option ZCThermostat) (zones : List String) :
    ∀ b : Building, zones.foldl (ensure_zone_step tc std) b =
      { b with schedules := (zones.foldl (ensure_zone_step tc std) b).schedules,
               thermostats := (zones.foldl (ensure_zone_step tc std) b).thermostats,
               tcThermostats :=
                 (zones.foldl (ensure_zone_step tc std) b).tcThermostats,
               fangerObjs := (zones.foldl (ensure_zone_step tc std) b).fangerObjs } := by
  induction zones with
  | nil => intro b; rfl
  | cons z zs ih =>
      intro b
      rw [List.foldl_cons, ih (ensure_zone_step tc std b z),
        zone_step_eq tc std b z]

theorem ensure_eq (b : Building) (uz : List String) :
    _ensure_infrastructure b uz =
      { b with schedules := (_ensure_infrastructure b uz).schedules,
               thermostats := (_ensure_infrastructure b uz).thermostats,
               tcThermostats := (_ensure_infrastructure b uz).tcThermostats,
               fangerObjs := (_ensure_infrastructure b uz).fangerObjs } := by
  simp only [_ensure_infrastructure]
  rw [fold_zone_step_eq]

theorem outputs_step_eq (fl : Bool) (uz : List String) (b : Building)
    (freq : String) :
    add_outputs_freq_step fl uz b freq =
      { b with outputVariables :=
          (add_outputs_freq_step fl uz b freq).outputVariables } := by
  unfold add_outputs_freq_step
  cases fl <;> rfl

theorem fold_outputs_step_eq (fl : Bool) (uz : List String) (l : List String) :
    ∀ b : Building, l.foldl (add_outputs_freq_step fl uz) b =
      { b with outputVariables :=
          (l.foldl (add_outputs_freq_step fl uz) b).outputVariables } := by
  induction l with
  | nil => intro b; rfl
  | cons x xs ih =>
      intro b
      rw [List.foldl_cons, ih (add_outputs_freq_step fl uz b x),
        outputs_step_eq fl uz b x]

theorem outputs_eq (b : Building) (fr : List String) (fl : Bool)
    (su uz : List String) :
    _add_apmv_outputs b fr fl su uz =
      { b with emsOutputVars := (_add_apmv_outputs b fr fl su uz).emsOutputVars,
               outputVariables := (_add_apmv_outputs b fr fl su uz).outputVariables,
               outputControlFiles :=
                 (_add_apmv_outputs b fr fl su uz).outputControlFiles } := by
  simp only [_add_apmv_outputs]
  rw [fold_outputs_step_eq]
  split <;> rfl

theorem sensors_eq (b : Building) (k s : List String) :
    _add_apmv_sensors b k s =
      { b with sensors := (_add_apmv_sensors b k s).sensors } := rfl

theorem globals_eq (b : Building) (s : List String) :
    _add_apmv_global_variables b s =
      { b with globalVars := (_add_apmv_global_variables b s).globalVars } := rfl

theorem actuators_eq (b : Building) (t : List Target) :
    _add_apmv_actuators b t =
      { b with actuators := (_add_apmv_actuators b t).actuators } := rfl

theorem programs_eq (b : Building) (s : List String)
    (df : List (String × ParamRow)) (cs ce : ℚ) :
    _add_apmv_programs b s df cs ce =
      { b with programs := (_add_apmv_programs b s df cs ce).programs } := rfl

theorem pcm_eq (b : Building) :
    _add_apmv_program_calling_managers b =
      { b with pcms := (_add_apmv_program_calling_managers b).pcms } := rfl

theorem ensure_proj_people (b : Building) (uz : List String) :
    (_ensure_infrastructure b uz).people = b.people := by
  rw [ensure_eq b uz]

theorem ensure_proj_zonelists (b : Building) (uz : List String) :
    (_ensure_infrastructure b uz).zonelists = b.zonelists := by
  rw [ensure_eq b uz]

theorem ensure_proj_spacelists (b : Building) (uz : List String) :
    (_ensure_infrastructure b uz).spacelists = b.spacelists := by
  rw [ensure_eq b uz]

theorem ensure_proj_spaces (b : Building) (uz : List String) :
    (_ensure_infrastructure b uz).spaces = b.spaces := by
  rw [ensure_eq b uz]

theorem ensure_proj_sensors (b : Building) (uz : List String) :
    (_ensure_infrastructure b uz).sensors = b.sensors := by
  rw [ensure_eq b uz]

theorem ensure_proj_actuators (b : Building) (uz : List String) :
    (_ensure_infrastructure b uz).actuators = b.actuators := by
  rw [ensure_eq b uz]

theorem ensure_proj_globalVars (b : Building) (uz : List String) :
    (_ensure_infrastructure b uz).globalVars = b.globalVars := by
  rw [ensure_eq b uz]

theorem ensure_proj_programs (b : Building) (uz : List String) :
    (_ensure_infrastructure b uz).programs = b.programs := by
  rw [ensure_eq b uz]

theorem ensure_proj_pcms (b : Building) (uz : List String) :
    (_ensure_infrastructure b uz).pcms = b.pcms := by
  rw [ensure_eq b uz]

theorem ensure_proj_emsOutputVars (b : Building) (uz : List String) :
    (_ensure_infrastructure b uz).emsOutputVars = b.emsOutputVars := by
  rw [ensure_eq b uz]

theorem ensure_proj_outputVariables (b : Building) (uz : List String) :
    (_ensure_infrastructure b uz).outputVariables = b.outputVariables := by
  rw [ensure_eq b uz]

theorem ensure_proj_outputControlFiles (b : Building) (uz : List String) :
    (_ensure_infrastructure b uz).outputControlFiles = b.outputControlFiles := by
  rw [ensure_eq b uz]

theorem outputs_proj_people (b : Building) (fr : List String) (fl : Bool)
    (su uz : List String) :
    (_add_apmv_outputs b fr fl su uz).people = b.people := by
  rw [outputs_eq b fr fl su uz]

theorem outputs_proj_zonelists (b : Building) (fr : List String) (fl : Bool)
    (su uz : List String) :
    (_add_apmv_outputs b fr fl su uz).zonelists = b.zonelists := by
  rw [outputs_eq b fr fl su uz]

theorem outputs_proj_spacelists (b : Building) (fr : List String) (fl : Bool)
    (su uz : List String) :
    (_add_apmv_outputs b fr fl su uz).spacelists = b.spacelists := by
  rw [outputs_eq b fr fl su uz]

theorem outputs_proj_spaces (b : Building) (fr : List String) (fl : Bool)
    (su uz : List String) :
    (_add_apmv_outputs b fr fl su uz).spaces = b.spaces := by
  rw [outputs_eq b fr fl su uz]

theorem outputs_proj_schedules (b : Building) (fr : List String) (fl : Bool)
    (su uz : List String) :
    (_add_apmv_outputs b fr fl su uz).schedules = b.schedules := by
  rw [outputs_eq b fr fl su uz]

theorem outputs_proj_thermostats (b : Building) (fr : List String) (fl : Bool)
    (su uz : List String) :
    (_add_apmv_outputs b fr fl su uz).thermostats = b.thermostats := by
  rw [outputs_eq b fr fl su uz]

theorem outputs_proj_tcThermostats (b : Building) (fr : List String) (fl : Bool)
    (su uz : List String) :
    (_add_apmv_outputs b fr fl su uz).tcThermostats = b.tcThermostats := by
  rw [outputs_eq b fr fl su uz]

theorem outputs_proj_fangerObjs (b : Building) (fr : List String) (fl : Bool)
    (su uz : List String) :
    (_add_apmv_outputs b fr fl su uz).fangerObjs = b.fangerObjs := by
  rw [outputs_eq b fr fl su uz]

theorem outputs_proj_sensors (b : Building) (fr : List String) (fl : Bool)
    (su uz : List String) :
    (_add_apmv_outputs b fr fl su uz).sensors = b.sensors := by
  rw [outputs_eq b fr fl su uz]

theorem outputs_proj_actuators (b : Building) (fr : List String) (fl : Bool)
    (su uz : List String) :
    (_add_apmv_outputs b fr fl su uz).actuators = b.actuators := by
  rw [outputs_eq b fr fl su uz]

theorem outputs_proj_globalVars (b : Building) (fr : List String) (fl : Bool)
    (su uz : List String) :
    (_add_apmv_outputs b fr fl su uz).globalVars = b.globalVars := by
  rw [outputs_eq b fr fl su uz]

theorem outputs_proj_programs (b : Building) (fr : List String) (fl : Bool)
    (su uz : List String) :
    (_add_apmv_outputs b fr fl su uz).programs = b.programs := by
  rw [outputs_eq b fr fl su uz]

theorem outputs_proj_pcms (b : Building) (fr : List String) (fl : Bool)
    (su uz : List String) :
    (_add_apmv_outputs b fr fl su uz).pcms = b.pcms := by
  rw [outputs_eq b fr fl su uz]


/-! ## Projections of the single-field generators -/

theorem sensors_proj_zones (b : Building) (k s : List String) :
    (_add_apmv_sensors b k s).zones = b.zones := rfl

theorem sensors_proj_zonelists (b : Building) (k s : List String) :
    (_add_apmv_sensors b k s).zonelists = b.zonelists := rfl

theorem sensors_proj_spacelists (b : Building) (k s : List String) :
    (_add_apmv_sensors b k s).spacelists = b.spacelists := rfl

theorem sensors_proj_spaces (b : Building) (k s : List String) :
    (_add_apmv_sensors b k s).spaces = b.spaces := rfl

theorem sensors_proj_people (b : Building) (k s : List String) :
    (_add_apmv_sensors b k s).people = b.people := rfl

theorem sensors_proj_schedules (b : Building) (k s : List String) :
    (_add_apmv_sensors b k s).schedules = b.schedules := rfl

theorem sensors_proj_thermostats (b : Building) (k s : List String) :
    (_add_apmv_sensors b k s).thermostats = b.thermostats := rfl

theorem sensors_proj_tcThermostats (b : Building) (k s : List String) :
    (_add_apmv_sensors b k s).tcThermostats = b.tcThermostats := rfl

theorem sensors_proj_fangerObjs (b : Building) (k s : List String) :
    (_add_apmv_sensors b k s).fangerObjs = b.fangerObjs := rfl

theorem sensors_proj_actuators (b : Building) (k s : List String) :
    (_add_apmv_sensors b k s).actuators = b.actuators := rfl

theorem sensors_proj_globalVars (b : Building) (k s : List String) :
    (_add_apmv_sensors b k s).globalVars = b.globalVars := rfl

theorem sensors_proj_programs (b : Building) (k s : List String) :
    (_add_apmv_sensors b k s).programs = b.programs := rfl

theorem sensors_proj_pcms (b : Building) (k s : List String) :
    (_add_apmv_sensors b k s).pcms = b.pcms := rfl

theorem sensors_proj_emsOutputVars (b : Building) (k s : List String) :
    (_add_apmv_sensors b k s).emsOutputVars = b.emsOutputVars := rfl

theorem sensors_proj_outputVariables (b : Building) (k s : List String) :
    (_add_apmv_sensors b k s).outputVariables = b.outputVariables := rfl

theorem sensors_proj_outputControlFiles (b : Building) (k s : List String) :
    (_add_apmv_sensors b k s).outputControlFiles = b.outputControlFiles := rfl

theorem globals_proj_zones (b : Building) (s : List String) :
    (_add_apmv_global_variables b s).zones = b.zones := rfl

theorem globals_proj_zonelists (b : Building) (s : List String) :
    (_add_apmv_global_variables b s).zonelists = b.zonelists := rfl

theorem globals_proj_spacelists (b : Building) (s : List String) :
    (_add_apmv_global_variables b s).spacelists = b.spacelists := rfl

theorem globals_proj_spaces (b : Building) (s : List String) :
    (_add_apmv_global_variables b s).spaces = b.spaces := rfl

theorem globals_proj_people (b : Building) (s : List String) :
    (_add_apmv_global_variables b s).people = b.people := rfl

theorem globals_proj_schedules (b : Building) (s : List String) :
    (_add_apmv_global_variables b s).schedules = b.schedules := rfl

theorem globals_proj_thermostats (b : Building) (s : List String) :
    (_add_apmv_global_variables b s).thermostats = b.thermostats := rfl

theorem globals_proj_tcThermostats (b : Building) (s : List String) :
    (_add_apmv_global_variables b s).tcThermostats = b.tcThermostats := rfl

theorem globals_proj_fangerObjs (b : Building) (s : List String) :
    (_add_apmv_global_variables b s).fangerObjs = b.fangerObjs := rfl

theorem globals_proj_sensors (b : Building) (s : List String) :
    (_add_apmv_global_variables b s).sensors = b.sensors := rfl

theorem globals_proj_actuators (b : Building) (s : List String) :
    (_add_apmv_global_variables b s).actuators = b.actuators := rfl

theorem globals_proj_programs (b : Building) (s : List String) :
    (_add_apmv_global_variables b s).programs = b.programs := rfl

theorem globals_proj_pcms (b : Building) (s : List String) :
    (_add_apmv_global_variables b s).pcms = b.pcms := rfl

theorem globals_proj_emsOutputVars (b : Building) (s : List String) :
    (_add_apmv_global_variables b s).emsOutputVars = b.emsOutputVars := rfl

theorem globals_proj_outputVariables (b : Building) (s : List String) :
    (_add_apmv_global_variables b s).outputVariables = b.outputVariables := rfl

theorem globals_proj_outputControlFiles (b : Building) (s : List String) :
    (_add_apmv_global_variables b s).outputControlFiles = b.outputControlFiles := rfl

theorem actuators_proj_zones (b : Building) (t : List Target) :
    (_add_apmv_actuators b t).zones = b.zones := rfl

theorem actuators_proj_zonelists (b : Building) (t : List Target) :
    (_add_apmv_actuators b t).zonelists = b.zonelists := rfl

theorem actuators_proj_spacelists (b : Building) (t : List Target) :
    (_add_apmv_actuators b t).spacelists = b.spacelists := rfl

theorem actuators_proj_spaces (b : Building) (t : List Target) :
    (_add_apmv_actuators b t).spaces = b.spaces := rfl

theorem actuators_proj_people (b : Building) (t : List Target) :
    (_add_apmv_actuators b t).people = b.people := rfl

theorem actuators_proj_schedules (b : Building) (t : List Target) :
    (_add_apmv_actuators b t).schedules = b.schedules := rfl

theorem actuators_proj_thermostats (b : Building) (t : List Target) :
    (_add_apmv_actuators b t).thermostats = b.thermostats := rfl

theorem actuators_proj_tcThermostats (b : Building) (t : List Target) :
    (_add_apmv_actuators b t).tcThermostats = b.tcThermostats := rfl

theorem actuators_proj_fangerObjs (b : Building) (t : List Target) :
    (_add_apmv_actuators b t).fangerObjs = b.fangerObjs := rfl

theorem actuators_proj_sensors (b : Building) (t : List Target) :
    (_add_apmv_actuators b t).sensors = b.sensors := rfl

theorem actuators_proj_globalVars (b : Building) (t : List Target) :
    (_add_apmv_actuators b t).globalVars = b.globalVars := rfl

theorem actuators_proj_programs (b : Building) (t : List Target) :
    (_add_apmv_actuators b t).programs = b.programs := rfl

theorem actuators_proj_pcms (b : Building) (t : List Target) :
    (_add_apmv_actuators b t).pcms = b.pcms := rfl

theorem actuators_proj_emsOutputVars (b : Building) (t : List Target) :
    (_add_apmv_actuators b t).emsOutputVars = b.emsOutputVars := rfl

theorem actuators_proj_outputVariables (b : Building) (t : List Target) :
    (_add_apmv_actuators b t).outputVariables = b.outputVariables := rfl

theorem actuators_proj_outputControlFiles (b : Building) (t : List Target) :
    (_add_apmv_actuators b t).outputControlFiles = b.outputControlFiles := rfl

theorem programs_proj_zones (b : Building) (s : List String) (df : List (String × ParamRow)) (cs ce : ℚ) :
    (_add_apmv_programs b s df cs ce).zones = b.zones := rfl

theorem programs_proj_zonelists (b : Building) (s : List String) (df : List (String × ParamRow)) (cs ce : ℚ) :
    (_add_apmv_programs b s df cs ce).zonelists = b.zonelists := rfl

theorem programs_proj_spacelists (b : Building) (s : List String) (df : List (String × ParamRow)) (cs ce : ℚ) :
    (_add_apmv_programs b s df cs ce).spacelists = b.spacelists := rfl

theorem programs_proj_spaces (b : Building) (s : List String) (df : List (String × ParamRow)) (cs ce : ℚ) :
    (_add_apmv_programs b s df cs ce).spaces = b.spaces := rfl

theorem programs_proj_people (b : Building) (s : List String) (df : List (String × ParamRow)) (cs ce : ℚ) :
    (_add_apmv_programs b s df cs ce).people = b.people := rfl

theorem programs_proj_schedules (b : Building) (s : List String) (df : List (String × ParamRow)) (cs ce : ℚ) :
    (_add_apmv_programs b s df cs ce).schedules = b.schedules := rfl

theorem programs_proj_thermostats (b : Building) (s : List String) (df : List (String × ParamRow)) (cs ce : ℚ) :
    (_add_apmv_programs b s df cs ce).thermostats = b.thermostats := rfl

theorem programs_proj_tcThermostats (b : Building) (s : List String) (df : List (String × ParamRow)) (cs ce : ℚ) :
    (_add_apmv_programs b s df cs ce).tcThermostats = b.tcThermostats := rfl

theorem programs_proj_fangerObjs (b : Building) (s : List String) (df : List (String × ParamRow)) (cs ce : ℚ) :
    (_add_apmv_programs b s df cs ce).fangerObjs = b.fangerObjs := rfl

theorem programs_proj_sensors (b : Building) (s : List String) (df : List (String × ParamRow)) (cs ce : ℚ) :
    (_add_apmv_programs b s df cs ce).sensors = b.sensors := rfl

theorem programs_proj_actuators (b : Building) (s : List String) (df : List (String × ParamRow)) (cs ce : ℚ) :
    (_add_apmv_programs b s df cs ce).actuators = b.actuators := rfl

theorem programs_proj_globalVars (b : Building) (s : List String) (df : List (String × ParamRow)) (cs ce : ℚ) :
    (_add_apmv_programs b s df cs ce).globalVars = b.globalVars := rfl

theorem programs_proj_pcms (b : Building) (s : List String) (df : List (String × ParamRow)) (cs ce : ℚ) :
    (_add_apmv_programs b s df cs ce).pcms = b.pcms := rfl

theorem programs_proj_emsOutputVars (b : Building) (s : List String) (df : List (String × ParamRow)) (cs ce : ℚ) :
    (_add_apmv_programs b s df cs ce).emsOutputVars = b.emsOutputVars := rfl

theorem programs_proj_outputVariables (b : Building) (s : List String) (df : List (String × ParamRow)) (cs ce : ℚ) :
    (_add_apmv_programs b s df cs ce).outputVariables = b.outputVariables := rfl

theorem programs_proj_outputControlFiles (b : Building) (s : List String) (df : List (String × ParamRow)) (cs ce : ℚ) :
    (_add_apmv_programs b s df cs ce).outputControlFiles = b.outputControlFiles := rfl

theorem pcm_proj_zones (b : Building) :
    (_add_apmv_program_calling_managers b).zones = b.zones := rfl

theorem pcm_proj_zonelists (b : Building) :
    (_add_apmv_program_calling_managers b).zonelists = b.zonelists := rfl

theorem pcm_proj_spacelists (b : Building) :
    (_add_apmv_program_calling_managers b).spacelists = b.spacelists := rfl

theorem pcm_proj_spaces (b : Building) :
    (_add_apmv_program_calling_managers b).spaces = b.spaces := rfl

theorem pcm_proj_people (b : Building) :
    (_add_apmv_program_calling_managers b).people = b.people := rfl

theorem pcm_proj_schedules (b : Building) :
    (_add_apmv_program_calling_managers b).schedules = b.schedules := rfl

theorem pcm_proj_thermostats (b : Building) :
    (_add_apmv_program_calling_managers b).thermostats = b.thermostats := rfl

theorem pcm_proj_tcThermostats (b : Building) :
    (_add_apmv_program_calling_managers b).tcThermostats = b.tcThermostats := rfl

theorem pcm_proj_fangerObjs (b : Building) :
    (_add_apmv_program_calling_managers b).fangerObjs = b.fangerObjs := rfl

theorem pcm_proj_sensors (b : Building) :
    (_add_apmv_program_calling_managers b).sensors = b.sensors := rfl

theorem pcm_proj_actuators (b : Building) :
    (_add_apmv_program_calling_managers b).actuators = b.actuators := rfl

theorem pcm_proj_globalVars (b : Building) :
    (_add_apmv_program_calling_managers b).globalVars = b.globalVars := rfl

theorem pcm_proj_programs (b : Building) :
    (_add_apmv_program_calling_managers b).programs = b.programs := rfl

theorem pcm_proj_emsOutputVars (b : Building) :
    (_add_apmv_program_calling_managers b).emsOutputVars = b.emsOutputVars := rfl

theorem pcm_proj_outputVariables (b : Building) :
    (_add_apmv_program_calling_managers b).outputVariables = b.outputVariables := rfl

theorem pcm_proj_outputControlFiles (b : Building) :
    (_add_apmv_program_calling_managers b).outputControlFiles = b.outputControlFiles := rfl

theorem apply_proj_people (building : Building) (args : ApmvArgs) :
    (apply_apmv_setpoints building args).people = building.people := by
  simp only [apply_apmv_setpoints]
  rw [outputs_proj_people, pcm_proj_people, programs_proj_people, actuators_proj_people,
    globals_proj_people, sensors_proj_people, ensure_proj_people]

theorem apply_proj_zonelists (building : Building) (args : ApmvArgs) :
    (apply_apmv_setpoints building args).zonelists = building.zonelists := by
  simp only [apply_apmv_setpoints]
  rw [outputs_proj_zonelists, pcm_proj_zonelists, programs_proj_zonelists, actuators_proj_zonelists,
    globals_proj_zonelists, sensors_proj_zonelists, ensure_proj_zonelists]

theorem apply_proj_spacelists (building : Building) (args : ApmvArgs) :
    (apply_apmv_setpoints building args).spacelists = building.spacelists := by
  simp only [apply_apmv_setpoints]
  rw [outputs_proj_spacelists, pcm_proj_spacelists, programs_proj_spacelists, actuators_proj_spacelists,
    globals_proj_spacelists, sensors_proj_spacelists, ensure_proj_spacelists]

theorem apply_proj_spaces (building : Building) (args : ApmvArgs) :
    (apply_apmv_setpoints building args).spaces = building.spaces := by
  simp only [apply_apmv_setpoints]
  rw [outputs_proj_spaces, pcm_proj_spaces, programs_proj_spaces, actuators_proj_spaces,
    globals_proj_spaces, sensors_proj_spaces, ensure_proj_spaces]

theorem resolve_targets_congr (b1 b2 : Building)
    (hz : b1.zonelists = b2.zonelists) (hs : b1.spacelists = b2.spacelists)
    (hsp : b1.spaces = b2.spaces) (hp : b1.people = b2.people) :
    _resolve_targets b1 = _resolve_targets b2 := by
  have hsl : space_lists b1 = space_lists b2 := by
    funext k; unfold space_lists; rw [hs]
  have hzl : zone_lists b1 = zone_lists b2 := by
    funext k; unfold zone_lists; rw [hz]
  have hsz : space_to_zone b1 = space_to_zone b2 := by
    funext k; unfold space_to_zone; rw [hsp]
  have hone : ∀ p, resolveOne b1 p = resolveOne b2 p := by
    intro p
    unfold resolveOne
    rw [hsl, hzl, hsz]
  have hfun : (fun (acc : List Target × List Warning) p =>
      (acc.1 ++ (resolveOne b1 p).1, acc.2 ++ (resolveOne b1 p).2)) =
      (fun acc p => (acc.1 ++ (resolveOne b2 p).1, acc.2 ++ (resolveOne b2 p).2)) := by
    funext acc p
    rw [hone p]
  unfold _resolve_targets
  rw [hp, hfun]

/-- Resolution is unaffected by a previous augmentation run. -/
theorem resolve_apply (building : Building) (args : ApmvArgs) :
    _resolve_targets (apply_apmv_setpoints building args) =
      _resolve_targets building :=
  resolve_targets_congr _ _ (apply_proj_zonelists building args)
    (apply_proj_spacelists building args) (apply_proj_spaces building args)
    (apply_proj_people building args)

/-! ## List lemmas for last-binding lookups and in-place updates -/

theorem updateFirstWhere_of_none {α : Type} (p : α → Bool) (g : α → α)
    (l : List α) (h : l.find? p = none) : updateFirstWhere p g l = l := by
  induction l with
  | nil => rfl
  | cons x xs ih =>
      rw [List.find?_cons] at h
      unfold updateFirstWhere
      cases hx : p x with
      | true => rw [hx] at h; exact absurd h (by simp)
      | false =>
          rw [hx] at h
          simp only [cond_false] at h
          rw [if_neg (by simp [hx]), ih h]

theorem find?_updateFirstWhere_self {α : Type} {p : α → Bool} {g : α → α}
    {l : List α} (hg : ∀ x, p x = true → p (g x) = true) :
    (updateFirstWhere p g l).find? p = (l.find? p).map g := by
  induction l with
  | nil => rfl
  | cons x xs ih =>
      unfold updateFirstWhere
      by_cases hx : p x = true
      · rw [if_pos hx, List.find?_cons_of_pos _ (hg x hx), List.find?_cons_of_pos _ hx]
        rfl
      · rw [if_neg hx, List.find?_cons_of_neg _ (by simpa using hx),
          List.find?_cons_of_neg _ (by simpa using hx), ih]

theorem find?_updateFirstWhere_other {α : Type} {p q : α → Bool} {g : α → α}
    {l : List α} (hpq : ∀ x, q x = true → p x = false ∧ p (g x) = false) :
    (updateFirstWhere q g l).find? p = l.find? p := by
  induction l with
  | nil => rfl
  | cons x xs ih =>
      unfold updateFirstWhere
      by_cases hx : q x = true
      · rw [if_pos hx,
          List.find?_cons_of_neg _ (by simp [(hpq x hx).2]),
          List.find?_cons_of_neg _ (by simp [(hpq x hx).1])]
      · rw [if_neg hx]
        by_cases hp : p x = true
        · rw [List.find?_cons_of_pos _ hp, List.find?_cons_of_pos _ hp]
        · rw [List.find?_cons_of_neg _ (by simpa using hp),
            List.find?_cons_of_neg _ (by simpa using hp), ih]

theorem find?_append_right {α : Type} (p : α → Bool) (l : List α) (e : α)
    (h : l.find? p = none) (he : p e = true) :
    (l ++ [e]).find? p = some e := by
  rw [List.find?_append, h]
  simp [he]

theorem find?_append_left {α : Type} (p : α → Bool) (l l2 : List α) (x : α)
    (h : l.find? p = some x) : (l ++ l2).find? p = some x := by
  rw [List.find?_append, h]
  rfl

theorem lookupLast_append {α : Type} (l1 l2 : List (String × α)) (k : String) :
    lookupLast (l1 ++ l2) k = (lookupLast l2 k).or (lookupLast l1 k) := by
  rw [lookupLast_eq_find?_reverse, lookupLast_eq_find?_reverse,
    lookupLast_eq_find?_reverse, List.reverse_append, List.find?_append]
  cases h : l2.reverse.find? (fun p => p.1 = k) with
  | none => simp [Option.or]
  | some v => simp [Option.or]

/-- A keyed last-binding lookup, through reversal: the value is the last
element whose key matches. -/
theorem lookupLast_map_key {α : Type} (l : List α) (κ : α → String) (k : String) :
    lookupLast (l.map (fun t => (κ t, t))) k =
      l.reverse.find? (fun t => κ t = k) := by
  rw [lookupLast_eq_find?_reverse, ← List.map_reverse, List.find?_map]
  cases h : l.reverse.find? (fun t => decide (κ t = k)) with
  | none =>
      have : l.reverse.find? ((fun p => decide (p.1 = k)) ∘ fun t => (κ t, t)) = none := by
        rw [List.find?_eq_none] at h ⊢
        intro x hx
        simpa using h x hx
      rw [this]
      rfl
  | some v =>
      have h2 : l.reverse.find? ((fun p => decide (p.1 = k)) ∘ fun t => (κ t, t)) = some v := by
        rw [← h]
        rfl
      rw [h2]
      rfl

/-! ## Thermostat and Fanger-object invariants of the zone loop -/

theorem tc_lookup_eq (b : Building) (k : String) :
    tc_lookup b k =
      b.tcThermostats.reverse.find?
        (fun t => pyUpper t.Zone_or_ZoneList_Name = k) :=
  lookupLast_map_key b.tcThermostats (fun t => pyUpper t.Zone_or_ZoneList_Name) k

theorem string_append_cancel_left {a b c : String} (h : a ++ b = a ++ c) :
    b = c := by
  apply String.ext
  have hd := congrArg String.data h
  rw [String.data_append, String.data_append] at hd
  exact List.append_cancel_left hd

theorem update_fanger_tcThermostats (b : Building) (nm z : String) :
    (_update_fanger_object b nm z).tcThermostats = b.tcThermostats := by
  rw [update_fanger_eq b nm z]

theorem update_fanger_establishes (b : Building) (z : String) :
    fanger_obj_at (_update_fanger_object b ("Fanger Setpoint " ++ z) z) z := by
  unfold _update_fanger_object
  by_cases hany : b.fangerObjs.any (fun f => f.Name = "Fanger Setpoint " ++ z) = true
  · rw [if_pos hany]
    have hfind : (b.fangerObjs.find?
        (fun f => f.Name = "Fanger Setpoint " ++ z)).isSome := by
      rw [List.find?_isSome]
      simpa using List.any_eq_true.mp hany
    obtain ⟨f0, hf0⟩ := Option.isSome_iff_exists.mp hfind
    refine ⟨⟨f0.Name, "PMV_H_SP_" ++ z, "PMV_C_SP_" ++ z⟩, ?_, rfl, rfl⟩
    simp only
    rw [find?_updateFirstWhere_self, hf0]
    · rfl
    · exact fun x hx => hx
  · rw [if_neg hany]
    have hnone : b.fangerObjs.find? (fun f => f.Name = "Fanger Setpoint " ++ z) = none := by
      rw [List.find?_eq_none]
      intro x hx
      intro hpx
      exact hany (List.any_eq_true.mpr ⟨x, hx, hpx⟩)
    refine ⟨⟨"Fanger Setpoint " ++ z, "PMV_H_SP_" ++ z, "PMV_C_SP_" ++ z⟩, ?_, rfl, rfl⟩
    simp only
    rw [find?_updateFirstWhere_self,
      find?_append_right _ _ _ hnone (by simp)]
    · rfl
    · exact fun x hx => hx

theorem update_fanger_preserves (b : Building) (nm z0 z : String)
    (hne : ("Fanger Setpoint " ++ z : String) ≠ nm)
    (h : fanger_obj_at b z) :
    fanger_obj_at (_update_fanger_object b nm z0) z := by
  obtain ⟨f, hf, hh, hc⟩ := h
  unfold _update_fanger_object
  have hdisj : ∀ x : FangerDualSetpoint, (decide (x.Name = nm)) = true →
      (decide (x.Name = "Fanger Setpoint " ++ z)) = false ∧
      (decide ((⟨x.Name, "PMV_H_SP_" ++ z0, "PMV_C_SP_" ++ z0⟩ :
        FangerDualSetpoint).Name = "Fanger Setpoint " ++ z)) = false := by
    intro x hx
    simp only [decide_eq_true_eq] at hx
    constructor
    · simp only [decide_eq_false_iff_not]
      intro hxe
      exact hne (hxe ▸ hx)
    · simp only [decide_eq_false_iff_not]
      intro hxe
      exact hne (hxe ▸ hx)
  by_cases hany : b.fangerObjs.any (fun f => f.Name = nm) = true
  · rw [if_pos hany]
    refine ⟨f, ?_, hh, hc⟩
    simp only
    rw [find?_updateFirstWhere_other]
    · exact hf
    · exact hdisj
  · rw [if_neg hany]
    refine ⟨f, ?_, hh, hc⟩
    simp only
    rw [find?_updateFirstWhere_other]
    · exact find?_append_left _ _ _ _ hf
    · exact hdisj

theorem updateFirstWhere_eq_self {α : Type} (p : α → Bool) (g : α → α)
    (l : List α) (x : α) (hg : g x = x) (hf : l.find? p = some x) :
    updateFirstWhere p g l = l := by
  induction l with
  | nil => simp at hf
  | cons a as ih =>
      unfold updateFirstWhere
      by_cases ha : p a = true
      · rw [List.find?_cons_of_pos _ ha] at hf
        obtain rfl : a = x := Option.some.inj hf
        rw [if_pos ha, hg]
      · rw [List.find?_cons_of_neg _ (by simpa using ha)] at hf
        rw [if_neg ha, ih hf]

theorem nodup_py_list_set (l : List String) : (py_list_set l).Nodup := by
  unfold py_list_set
  suffices h : ∀ (l acc : List String), acc.Nodup →
      (l.foldl (fun acc k => if acc.contains k then acc else acc ++ [k]) acc).Nodup by
    exact h l [] List.nodup_nil
  intro l
  induction l with
  | nil => exact fun acc h => h
  | cons x xs ih =>
      intro acc h
      rw [List.foldl_cons]
      by_cases hx : acc.contains x = true
      · rw [if_pos hx]
        exact ih acc h
      · rw [if_neg hx]
        refine ih _ (List.nodup_append.mpr ⟨h, List.nodup_singleton x, ?_⟩)
        intro a ha hax
        rw [List.mem_singleton] at hax
        subst hax
        exact hx (by simpa using ha)

theorem find?_reverse_append_single {α : Type} (p : α → Bool) (l : List α)
    (e : α) :
    ((l ++ [e]).reverse).find? p =
      if p e = true then some e else l.reverse.find? p := by
  rw [List.reverse_append, List.reverse_singleton, List.singleton_append]
  cases hpe : p e with
  | true => rw [if_pos rfl]; exact List.find?_cons_of_pos _ hpe
  | false => rw [if_neg (by simp)]; exact List.find?_cons_of_neg _ (by simp [hpe])

theorem reverse_updateLastWhere {α : Type} (p : α → Bool) (g : α → α)
    (l : List α) :
    (updateLastWhere p g l).reverse = updateFirstWhere p g l.reverse := by
  unfold updateLastWhere
  rw [List.reverse_reverse]

theorem tc_lookup_congr {b1 b2 : Building}
    (h : b1.tcThermostats = b2.tcThermostats) : tc_lookup b1 = tc_lookup b2 := by
  funext k
  unfold tc_lookup
  rw [h]

theorem fanger_tc_congr {b1 b2 : Building}
    (h : b1.tcThermostats = b2.tcThermostats) {k : String}
    (hf : fanger_tc_at b1 k) : fanger_tc_at b2 k := by
  unfold fanger_tc_at at hf ⊢
  rw [← tc_lookup_congr h]
  exact hf

theorem fanger_obj_congr {b1 b2 : Building}
    (h : b1.fangerObjs = b2.fangerObjs) {z : String}
    (hf : fanger_obj_at b1 z) : fanger_obj_at b2 z := by
  unfold fanger_obj_at at hf ⊢
  rw [← h]
  exact hf

theorem create_tc_tcThermostats (b : Building) (z : String) :
    (_create_tc_thermostat b z).tcThermostats =
      b.tcThermostats ++
        [⟨"Thermostat Setpoint Dual Setpoint " ++ z, z,
          "Thermal Comfort Control Type Schedule Name " ++ z,
          "ThermostatSetpoint:ThermalComfort:Fanger:DualSetpoint",
          "Fanger Setpoint " ++ z⟩] := by
  unfold _create_tc_thermostat
  rw [update_fanger_tcThermostats]
  split <;> rfl

theorem tc_lookup_create_tc (b : Building) (z k : String) :
    tc_lookup (_create_tc_thermostat b z) k =
      if pyUpper z = k
      then some ⟨"Thermostat Setpoint Dual Setpoint " ++ z, z,
          "Thermal Comfort Control Type Schedule Name " ++ z,
          "ThermostatSetpoint:ThermalComfort:Fanger:DualSetpoint",
          "Fanger Setpoint " ++ z⟩
      else tc_lookup b k := by
  rw [tc_lookup_eq, tc_lookup_eq, create_tc_tcThermostats,
    find?_reverse_append_single]
  by_cases h : pyUpper z = k
  · rw [if_pos (by simpa using h), if_pos h]
  · rw [if_neg (by simpa using h), if_neg h]

theorem create_tc_fanger_tc (b : Building) (z : String) :
    fanger_tc_at (_create_tc_thermostat b z) (pyUpper z) := by
  refine ⟨⟨"Thermostat Setpoint Dual Setpoint " ++ z, z,
      "Thermal Comfort Control Type Schedule Name " ++ z,
      "ThermostatSetpoint:ThermalComfort:Fanger:DualSetpoint",
      "Fanger Setpoint " ++ z⟩, ?_, rfl⟩
  rw [tc_lookup_create_tc, if_pos rfl]

theorem create_tc_fanger_tc_pres (b : Building) (z k : String)
    (h : fanger_tc_at b k) : fanger_tc_at (_create_tc_thermostat b z) k := by
  by_cases hz : pyUpper z = k
  · subst hz
    exact create_tc_fanger_tc b z
  · obtain ⟨t, ht, htype⟩ := h
    refine ⟨t, ?_, htype⟩
    rw [tc_lookup_create_tc, if_neg hz]
    exact ht

theorem tcfind_updateLast (l : List TCThermostat) (u k : String)
    (g : TCThermostat → TCThermostat)
    (hg : ∀ t, (g t).Zone_or_ZoneList_Name = t.Zone_or_ZoneList_Name) :
    (updateLastWhere (fun t => pyUpper t.Zone_or_ZoneList_Name = u) g
        l).reverse.find? (fun t => pyUpper t.Zone_or_ZoneList_Name = k) =
      if u = k
      then (l.reverse.find? (fun t => pyUpper t.Zone_or_ZoneList_Name = k)).map g
      else l.reverse.find? (fun t => pyUpper t.Zone_or_ZoneList_Name = k) := by
  rw [reverse_updateLastWhere]
  by_cases huk : u = k
  · subst huk
    rw [if_pos rfl]
    exact find?_updateFirstWhere_self (fun x hx => by simpa [hg x] using hx)
  · rw [if_neg huk]
    refine find?_updateFirstWhere_other (fun x hx => ?_)
    simp only [decide_eq_true_eq] at hx
    constructor
    · simp only [decide_eq_false_iff_not]
      exact fun hc => huk (hx ▸ hc)
    · simp only [decide_eq_false_iff_not, hg x]
      exact fun hc => huk (hx ▸ hc)

theorem tc_lookup_caseC_updated (s : Building) (z k : String) :
    tc_lookup (_update_fanger_object
      ⟨s.zones, s.zonelists, s.spacelists, s.spaces, s.people, s.schedules,
       s.thermostats,
       updateLastWhere (fun t => pyUpper t.Zone_or_ZoneList_Name = pyUpper z)
         (fun t => ⟨t.Name, t.Zone_or_ZoneList_Name,
           t.Thermal_Comfort_Control_Type_Schedule_Name,
           "ThermostatSetpoint:ThermalComfort:Fanger:DualSetpoint",
           "Fanger Setpoint " ++ z⟩) s.tcThermostats,
       s.fangerObjs, s.sensors, s.actuators, s.globalVars, s.programs, s.pcms,
       s.emsOutputVars, s.outputVariables, s.outputControlFiles⟩
      ("Fanger Setpoint " ++ z) z) k =
      if pyUpper z = k
      then (tc_lookup s k).map (fun t => ⟨t.Name, t.Zone_or_ZoneList_Name,
              t.Thermal_Comfort_Control_Type_Schedule_Name,
              "ThermostatSetpoint:ThermalComfort:Fanger:DualSetpoint",
              "Fanger Setpoint " ++ z⟩)
      else tc_lookup s k := by
  rw [tc_lookup_congr (update_fanger_tcThermostats _ _ _), tc_lookup_eq]
  dsimp only
  rw [tcfind_updateLast]
  · by_cases hzk : pyUpper z = k
    · rw [if_pos hzk, if_pos hzk, tc_lookup_eq]
    · rw [if_neg hzk, if_neg hzk, tc_lookup_eq]
  · exact fun t => rfl

theorem create_tc_obj_est (b : Building) (z : String) :
    fanger_obj_at (_create_tc_thermostat b z) z := by
  simp only [_create_tc_thermostat]
  exact update_fanger_establishes _ z

theorem create_tc_obj_pres (b : Building) (z z' : String) (hne : z' ≠ z)
    (h : fanger_obj_at b z') : fanger_obj_at (_create_tc_thermostat b z) z' := by
  simp only [_create_tc_thermostat]
  refine update_fanger_preserves _ _ _ _
    (fun hc => hne (string_append_cancel_left hc)) ?_
  refine fanger_obj_congr ?_ h
  split
  · rfl
  · rfl

theorem zone_step_obj_est (tc : String → Option TCThermostat)
    (std : String → Option ZCThermostat) (s : Building) (z : String) :
    fanger_obj_at (ensure_zone_step tc std s z) z := by
  simp only [ensure_zone_step]
  cases htc : tc (pyUpper z) with
  | some tc_t =>
      simp only [htc]
      exact update_fanger_establishes _ z
  | none =>
      simp only [htc]
      cases hstd : std (pyUpper z) with
      | some t =>
          simp only [hstd]
          exact create_tc_obj_est _ z
      | none =>
          simp only [hstd]
          exact create_tc_obj_est _ z

theorem zone_step_obj_pres (tc : String → Option TCThermostat)
    (std : String → Option ZCThermostat) (s : Building) (z z' : String)
    (hne : z' ≠ z) (h : fanger_obj_at s z') :
    fanger_obj_at (ensure_zone_step tc std s z) z' := by
  simp only [ensure_zone_step]
  cases htc : tc (pyUpper z) with
  | some tc_t =>
      simp only [htc]
      refine update_fanger_preserves _ _ _ _
        (fun hc => hne (string_append_cancel_left hc)) ?_
      refine fanger_obj_congr ?_ h
      split
      · rfl
      · rfl
  | none =>
      simp only [htc]
      cases hstd : std (pyUpper z) with
      | some t =>
          simp only [hstd]
          exact create_tc_obj_pres _ _ _ hne (fanger_obj_congr rfl h)
      | none =>
          simp only [hstd]
          exact create_tc_obj_pres _ _ _ hne h

theorem zone_step_tc_P (tc : String → Option TCThermostat)
    (std : String → Option ZCThermostat) (s : Building) (z : String)
    (hP : ∀ k, fanger_tc_at s k ∨ tc_lookup s k = tc k) :
    ∀ k, fanger_tc_at (ensure_zone_step tc std s z) k ∨
      tc_lookup (ensure_zone_step tc std s z) k = tc k := by
  intro k
  simp only [ensure_zone_step]
  cases htc : tc (pyUpper z) with
  | some tc_t =>
      simp only [htc]
      by_cases hne : tc_t.Thermal_Comfort_Control_1_Object_Type ≠
          "ThermostatSetpoint:ThermalComfort:Fanger:DualSetpoint"
      · rw [if_pos hne]
        by_cases hzk : pyUpper z = k
        · left
          have hsome : ∃ t0, tc_lookup s k = some t0 := by
            rcases hP k with ⟨t0, ht0, _⟩ | hr
            · exact ⟨t0, ht0⟩
            · exact ⟨tc_t, by rw [hr, ← hzk, htc]⟩
          obtain ⟨t0, ht0⟩ := hsome
          refine ⟨⟨t0.Name, t0.Zone_or_ZoneList_Name,
            t0.Thermal_Comfort_Control_Type_Schedule_Name,
            "ThermostatSetpoint:ThermalComfort:Fanger:DualSetpoint",
            "Fanger Setpoint " ++ z⟩, ?_, rfl⟩
          rw [tc_lookup_caseC_updated, if_pos hzk, ht0]
          rfl
        · rcases hP k with ⟨t0, ht0, hty⟩ | hr
          · exact Or.inl ⟨t0,
              by rw [tc_lookup_caseC_updated, if_neg hzk]; exact ht0, hty⟩
          · exact Or.inr (by rw [tc_lookup_caseC_updated, if_neg hzk]; exact hr)
      · rw [if_neg hne]
        rcases hP k with hL | hr
        · exact Or.inl (fanger_tc_congr (update_fanger_tcThermostats _ _ _).symm hL)
        · refine Or.inr ?_
          rw [tc_lookup_congr (update_fanger_tcThermostats _ _ _)]
          exact hr
  | none =>
      simp only [htc]
      cases hstd : std (pyUpper z) with
      | some t =>
          simp only [hstd]
          by_cases hzk : pyUpper z = k
          · exact Or.inl (hzk ▸ create_tc_fanger_tc _ z)
          · rcases hP k with hL | hr
            · exact Or.inl (create_tc_fanger_tc_pres _ z k (fanger_tc_congr rfl hL))
            · refine Or.inr ?_
              rw [tc_lookup_create_tc, if_neg hzk]
              exact hr
      | none =>
          simp only [hstd]
          by_cases hzk : pyUpper z = k
          · exact Or.inl (hzk ▸ create_tc_fanger_tc _ z)
          · rcases hP k with hL | hr
            · exact Or.inl (create_tc_fanger_tc_pres _ z k hL)
            · refine Or.inr ?_
              rw [tc_lookup_create_tc, if_neg hzk]
              exact hr

theorem zone_step_tc_est (tc : String → Option TCThermostat)
    (std : String → Option ZCThermostat) (s : Building) (z : String)
    (hP : ∀ k, fanger_tc_at s k ∨ tc_lookup s k = tc k) :
    fanger_tc_at (ensure_zone_step tc std s z) (pyUpper z) := by
  simp only [ensure_zone_step]
  cases htc : tc (pyUpper z) with
  | some tc_t =>
      simp only [htc]
      by_cases hne : tc_t.Thermal_Comfort_Control_1_Object_Type ≠
          "ThermostatSetpoint:ThermalComfort:Fanger:DualSetpoint"
      · rw [if_pos hne]
        have hsome : ∃ t0, tc_lookup s (pyUpper z) = some t0 := by
          rcases hP (pyUpper z) with ⟨t0, ht0, _⟩ | hr
          · exact ⟨t0, ht0⟩
          · exact ⟨tc_t, by rw [hr, htc]⟩
        obtain ⟨t0, ht0⟩ := hsome
        refine ⟨⟨t0.Name, t0.Zone_or_ZoneList_Name,
          t0.Thermal_Comfort_Control_Type_Schedule_Name,
          "ThermostatSetpoint:ThermalComfort:Fanger:DualSetpoint",
          "Fanger Setpoint " ++ z⟩, ?_, rfl⟩
        rw [tc_lookup_caseC_updated, if_pos rfl, ht0]
        rfl
      · rw [if_neg hne]
        refine fanger_tc_congr (update_fanger_tcThermostats _ _ _).symm ?_
        rcases hP (pyUpper z) with hL | hr
        · exact hL
        · exact ⟨tc_t, by rw [hr, htc], not_not.mp hne⟩
  | none =>
      simp only [htc]
      cases hstd : std (pyUpper z) with
      | some t =>
          simp only [hstd]
          exact create_tc_fanger_tc _ z
      | none =>
          simp only [hstd]
          exact create_tc_fanger_tc _ z

theorem zone_step_tc_pres (tc : String → Option TCThermostat)
    (std : String → Option ZCThermostat) (s : Building) (z k : String)
    (h : fanger_tc_at s k) : fanger_tc_at (ensure_zone_step tc std s z) k := by
  simp only [ensure_zone_step]
  cases htc : tc (pyUpper z) with
  | some tc_t =>
      simp only [htc]
      by_cases hne : tc_t.Thermal_Comfort_Control_1_Object_Type ≠
          "ThermostatSetpoint:ThermalComfort:Fanger:DualSetpoint"
      · rw [if_pos hne]
        obtain ⟨t0, ht0, hty⟩ := h
        by_cases hzk : pyUpper z = k
        · refine ⟨⟨t0.Name, t0.Zone_or_ZoneList_Name,
            t0.Thermal_Comfort_Control_Type_Schedule_Name,
            "ThermostatSetpoint:ThermalComfort:Fanger:DualSetpoint",
            "Fanger Setpoint " ++ z⟩, ?_, rfl⟩
          rw [tc_lookup_caseC_updated, if_pos hzk, ht0]
          rfl
        · exact ⟨t0, by rw [tc_lookup_caseC_updated, if_neg hzk]; exact ht0, hty⟩
      · rw [if_neg hne]
        exact fanger_tc_congr (update_fanger_tcThermostats _ _ _).symm h
  | none =>
      simp only [htc]
      cases hstd : std (pyUpper z) with
      | some t =>
          simp only [hstd]
          exact create_tc_fanger_tc_pres _ z k (fanger_tc_congr rfl h)
      | none =>
          simp only [hstd]
          exact create_tc_fanger_tc_pres _ z k h

theorem fold_zone_step_tc_pres (tc : String → Option TCThermostat)
    (std : String → Option ZCThermostat) (zones : List String) :
    ∀ (s : Building) (k : String), fanger_tc_at s k →
      fanger_tc_at (zones.foldl (ensure_zone_step tc std) s) k := by
  induction zones with
  | nil => exact fun s k h => h
  | cons z zs ih =>
      intro s k h
      rw [List.foldl_cons]
      exact ih _ k (zone_step_tc_pres tc std s z k h)

theorem fold_zone_step_tc (tc : String → Option TCThermostat)
    (std : String → Option ZCThermostat) (zones : List String) :
    ∀ s : Building, (∀ k, fanger_tc_at s k ∨ tc_lookup s k = tc k) →
      ∀ z ∈ zones,
        fanger_tc_at (zones.foldl (ensure_zone_step tc std) s) (pyUpper z) := by
  induction zones with
  | nil => intro s _ z hz; exact absurd hz (List.not_mem_nil z)
  | cons z0 zs ih =>
      intro s hP z hz
      rw [List.foldl_cons]
      rcases List.mem_cons.mp hz with rfl | hz'
      · exact fold_zone_step_tc_pres tc std zs _ (pyUpper z)
          (zone_step_tc_est tc std s z hP)
      · exact ih _ (zone_step_tc_P tc std s z0 hP) z hz'

theorem ensure_tc_post (b : Building) (zones : List String) :
    ∀ z ∈ zones, fanger_tc_at (_ensure_infrastructure b zones) (pyUpper z) := by
  simp only [_ensure_infrastructure]
  intro z hz
  refine fold_zone_step_tc _ _ zones _ ?_ z hz
  intro k
  exact Or.inr rfl

theorem fold_zone_step_obj_pres (tc : String → Option TCThermostat)
    (std : String → Option ZCThermostat) (zones : List String) :
    ∀ (s : Building) (z' : String), z' ∉ zones → fanger_obj_at s z' →
      fanger_obj_at (zones.foldl (ensure_zone_step tc std) s) z' := by
  induction zones with
  | nil => exact fun s z' _ h => h
  | cons z zs ih =>
      intro s z' hnm h
      rw [List.foldl_cons]
      have hne : z' ≠ z := fun hc => hnm (hc ▸ List.mem_cons_self z zs)
      exact ih _ z' (fun hc => hnm (List.mem_cons_of_mem z hc))
        (zone_step_obj_pres tc std s z z' hne h)

theorem fold_zone_step_obj (tc : String → Option TCThermostat)
    (std : String → Option ZCThermostat) (zones : List String) :
    ∀ s : Building, zones.Nodup →
      ∀ z ∈ zones, fanger_obj_at (zones.foldl (ensure_zone_step tc std) s) z := by
  induction zones with
  | nil => intro s _ z hz; exact absurd hz (List.not_mem_nil z)
  | cons z0 zs ih =>
      intro s hnd z hz
      rw [List.foldl_cons]
      rcases List.mem_cons.mp hz with rfl | hz'
      · exact fold_zone_step_obj_pres tc std zs _ z
          (List.nodup_cons.mp hnd).1 (zone_step_obj_est tc std s z)
      · exact ih _ (List.nodup_cons.mp hnd).2 z hz'

theorem ensure_obj_post (b : Building) (zones : List String)
    (hnd : zones.Nodup) :
    ∀ z ∈ zones, fanger_obj_at (_ensure_infrastructure b zones) z := by
  simp only [_ensure_infrastructure]
  exact fold_zone_step_obj _ _ zones _ hnd

theorem ensure_sched_post (b : Building) (zones : List String) :
    ∀ z ∈ zones, ∀ i, i = "PMV_H_SP" ∨ i = "PMV_C_SP" →
      (i ++ "_" ++ z) ∈
        (_ensure_infrastructure b zones).schedules.map (fun s => s.Name) := by
  intro z hz i hi
  obtain ⟨extra, he, _⟩ := ensure_infra_schedules b zones
  rw [he, List.map_append, List.map_append]
  by_cases hc : (b.schedules.map (fun s => s.Name)).contains (i ++ "_" ++ z)
  · exact List.mem_append.mpr (Or.inl (List.mem_append.mpr (Or.inl (by simpa using hc))))
  · refine List.mem_append.mpr (Or.inl (List.mem_append.mpr (Or.inr ?_)))
    refine List.mem_map.mpr ⟨pmv_schedule (i ++ "_" ++ z), ?_, rfl⟩
    unfold pmv_schedule_batch
    refine List.mem_flatMap.mpr ⟨i, ?_, List.mem_filterMap.mpr ⟨z, hz, ?_⟩⟩
    · rcases hi with rfl | rfl <;> simp
    · simp only
      rw [if_neg hc]

theorem flatMap_eq_nil_of {α β : Type} (l : List α) (f : α → List β)
    (h : ∀ a ∈ l, f a = []) : l.flatMap f = [] := by
  induction l with
  | nil => rfl
  | cons x xs ih =>
      rw [List.flatMap_cons, h x (List.mem_cons_self x xs), List.nil_append]
      exact ih (fun a ha => h a (List.mem_cons_of_mem x ha))

theorem filterMap_eq_nil_of {α β : Type} (l : List α) (f : α → Option β)
    (h : ∀ a ∈ l, f a = none) : l.filterMap f = [] := by
  induction l with
  | nil => rfl
  | cons x xs ih =>
      simp only [List.filterMap_cons, h x (List.mem_cons_self x xs)]
      exact ih (fun a ha => h a (List.mem_cons_of_mem x ha))

theorem filter_eq_nil_of {α : Type} (l : List α) (p : α → Bool)
    (h : ∀ a ∈ l, p a = false) : l.filter p = [] := by
  rw [List.filter_eq_nil_iff]
  intro a ha
  simp [h a ha]

theorem pmv_schedule_batch_nil (names : List String) (zones : List String)
    (h : ∀ z ∈ zones, ∀ i, i = "PMV_H_SP" ∨ i = "PMV_C_SP" →
      names.contains (i ++ "_" ++ z) = true) :
    pmv_schedule_batch names zones = [] := by
  unfold pmv_schedule_batch
  refine flatMap_eq_nil_of _ _ (fun i hi => ?_)
  refine filterMap_eq_nil_of _ _ (fun z hz => ?_)
  simp only
  rw [if_pos (h z hz i (by simpa using hi))]

theorem update_fanger_noop (b : Building) (z : String)
    (hobj : fanger_obj_at b z) :
    _update_fanger_object b ("Fanger Setpoint " ++ z) z = b := by
  obtain ⟨f, hf, hh, hc⟩ := hobj
  have hg : (⟨f.Name, "PMV_H_SP_" ++ z, "PMV_C_SP_" ++ z⟩ :
      FangerDualSetpoint) = f := by
    obtain ⟨n, hs, cs⟩ := f
    simp only at hh hc ⊢
    rw [hh, hc]
  have hany : b.fangerObjs.any
      (fun x => x.Name = "Fanger Setpoint " ++ z) = true := by
    rw [List.any_eq_true]
    refine ⟨f, List.mem_of_find?_eq_some hf, ?_⟩
    have := List.find?_some hf
    simpa using this
  simp only [_update_fanger_object]
  rw [if_pos hany, updateFirstWhere_eq_self _ _ _ f]
  · exact hg
  · exact hf

theorem zone_step_noop (tc : String → Option TCThermostat)
    (std : String → Option ZCThermostat) (s : Building) (z : String)
    (htc : ∃ t, tc (pyUpper z) = some t ∧
      t.Thermal_Comfort_Control_1_Object_Type =
        "ThermostatSetpoint:ThermalComfort:Fanger:DualSetpoint")
    (hobj : fanger_obj_at s z) :
    ensure_zone_step tc std s z = s := by
  obtain ⟨t, ht, hty⟩ := htc
  simp only [ensure_zone_step, ht]
  rw [if_neg (fun hcon => hcon hty)]
  exact update_fanger_noop s z hobj

theorem fold_zone_step_noop (tc : String → Option TCThermostat)
    (std : String → Option ZCThermostat) (zones : List String) (s : Building)
    (h : ∀ z ∈ zones, (∃ t, tc (pyUpper z) = some t ∧
      t.Thermal_Comfort_Control_1_Object_Type =
        "ThermostatSetpoint:ThermalComfort:Fanger:DualSetpoint") ∧
      fanger_obj_at s z) :
    zones.foldl (ensure_zone_step tc std) s = s := by
  induction zones with
  | nil => rfl
  | cons z zs ih =>
      rw [List.foldl_cons,
        zone_step_noop tc std s z (h z (List.mem_cons_self z zs)).1
          (h z (List.mem_cons_self z zs)).2]
      exact ih (fun z' hz' => h z' (List.mem_cons_of_mem z hz'))

theorem ensure_noop (b : Building) (zones : List String)
    (hA : ∀ z ∈ zones, ∀ i, i = "PMV_H_SP" ∨ i = "PMV_C_SP" →
      (b.schedules.map (fun s => s.Name)).contains (i ++ "_" ++ z) = true)
    (hB : ∀ z ∈ zones, fanger_tc_at b (pyUpper z))
    (hC : ∀ z ∈ zones, fanger_obj_at b z) :
    _ensure_infrastructure b zones = b := by
  simp only [_ensure_infrastructure]
  rw [pmv_schedule_batch_nil _ _ hA, List.append_nil]
  have hbb : ({ b with schedules := b.schedules } : Building) = b := rfl
  rw [hbb]
  refine fold_zone_step_noop _ _ zones b (fun z hz => ⟨?_, hC z hz⟩)
  exact hB z hz

theorem sensors_noop (b : Building) (keys sfx : List String)
    (h : ∀ sk ∈ sfx.zip keys,
      (b.sensors.map (fun s => s.Name)).contains ("PMV_" ++ sk.1) = true ∧
      (b.sensors.map (fun s => s.Name)).contains
        ("People_Occupant_Count_" ++ sk.1) = true) :
    _add_apmv_sensors b keys sfx = b := by
  unfold _add_apmv_sensors
  simp only
  rw [flatMap_eq_nil_of, List.append_nil]
  intro sk hsk
  rw [if_pos (h sk hsk).1, if_pos (h sk hsk).2]
  rfl

theorem globals_noop (b : Building) (sfx : List String)
    (h1 : ∀ gv, gv = "CoolingSeason" ∨ gv = "CoolSeasonEnd" ∨
      gv = "CoolSeasonStart" → b.globalVars.contains gv = true)
    (h2 : ∀ stem ∈ gv_variable_stems, ∀ suffix ∈ sfx,
      b.globalVars.contains (stem ++ "_" ++ suffix) = true) :
    _add_apmv_global_variables b sfx = b := by
  unfold _add_apmv_global_variables
  simp only
  rw [filter_eq_nil_of, flatMap_eq_nil_of, List.nil_append, List.append_nil]
  · intro stem hstem
    refine filterMap_eq_nil_of _ _ (fun suffix hsfx => ?_)
    rw [if_pos (h2 stem hstem suffix hsfx)]
  · intro a ha
    have hmem : a ∈ b.globalVars := by simpa using h1 a (by simpa using ha)
    simp [hmem]

theorem actuators_noop (b : Building) (td : List Target)
    (h : ∀ t ∈ td, ∀ i ∈ (["H", "C"] : List String),
      (b.actuators.map (fun a => a.Name)).contains
        ("PMV_" ++ i ++ "_SP_act_" ++ t.ems_suffix) = true) :
    _add_apmv_actuators b td = b := by
  unfold _add_apmv_actuators
  simp only
  rw [flatMap_eq_nil_of, List.append_nil]
  intro t ht
  refine filterMap_eq_nil_of _ _ (fun i hi => ?_)
  rw [if_pos (h t ht i hi)]

theorem programs_noop (b : Building) (sfx : List String)
    (df : List (String × ParamRow)) (cs ce : ℚ)
    (h1 : (b.programs.map (fun p => p.Name)).contains
      "set_cooling_season_input_data" = true)
    (h2 : (b.programs.map (fun p => p.Name)).contains
      "set_cooling_season" = true)
    (h3 : ∀ suffix ∈ sfx, ∀ r : String × ParamRow,
      df.find? (fun q => q.2.underscore_zonename = suffix) = some r →
      (b.programs.map (fun p => p.Name)).contains
        ("set_zone_input_data_" ++ suffix) = true ∧
      (b.programs.map (fun p => p.Name)).contains
        ("apply_aPMV_" ++ suffix) = true ∧
      (b.programs.map (fun p => p.Name)).contains
        ("monitor_aPMV_" ++ suffix) = true ∧
      (b.programs.map (fun p => p.Name)).contains
        ("count_aPMV_comfort_hours_" ++ suffix) = true) :
    _add_apmv_programs b sfx df cs ce = b := by
  unfold _add_apmv_programs
  simp only
  rw [if_pos h1, if_pos h2, flatMap_eq_nil_of]
  · rw [List.append_nil, List.append_nil, List.append_nil]
  · intro suffix hsfx
    cases hdf : df.find? (fun q => q.2.underscore_zonename = suffix) with
    | none => simp only [hdf]
    | some r =>
        simp only [hdf]
        obtain ⟨c1, c2, c3, c4⟩ := h3 suffix hsfx r hdf
        rw [if_pos c1, if_pos c2, if_pos c3, if_pos c4]
        rfl

theorem pcm_noop (b : Building)
    (h : ∀ n ∈ b.programs.map (fun p => p.Name),
      (b.pcms.map (fun p => p.Name)).contains n = true) :
    _add_apmv_program_calling_managers b = b := by
  unfold _add_apmv_program_calling_managers
  simp only
  rw [filterMap_eq_nil_of, List.append_nil]
  intro n hn
  rw [if_pos (h n hn)]

theorem sensors_sensors (b : Building) (keys sfx : List String) :
    (_add_apmv_sensors b keys sfx).sensors =
      b.sensors ++
        ((sfx.zip keys).flatMap (fun sk =>
          (if (b.sensors.map (fun s => s.Name)).contains ("PMV_" ++ sk.1) then []
           else [⟨"PMV_" ++ sk.1, sk.2, "Zone Thermal Comfort Fanger Model PMV"⟩]) ++
          (if (b.sensors.map (fun s => s.Name)).contains
              ("People_Occupant_Count_" ++ sk.1) then []
           else [⟨"People_Occupant_Count_" ++ sk.1, sk.2,
             "People Occupant Count"⟩]))) := rfl

theorem globals_globalVars (b : Building) (sfx : List String) :
    (_add_apmv_global_variables b sfx).globalVars =
      b.globalVars ++
        ((["CoolingSeason", "CoolSeasonEnd", "CoolSeasonStart"].filter
            (fun gv => ¬ b.globalVars.contains gv)) ++
         (gv_variable_stems.flatMap (fun stem =>
           sfx.filterMap (fun suffix =>
             if b.globalVars.contains (stem ++ "_" ++ suffix) then none
             else some (stem ++ "_" ++ suffix))))) := rfl

theorem actuators_actuators (b : Building) (td : List Target) :
    (_add_apmv_actuators b td).actuators =
      b.actuators ++
        (td.flatMap (fun target =>
          ["H", "C"].filterMap (fun i =>
            if (b.actuators.map (fun a => a.Name)).contains
                ("PMV_" ++ i ++ "_SP_act_" ++ target.ems_suffix) then none
            else some ⟨"PMV_" ++ i ++ "_SP_act_" ++ target.ems_suffix,
              "PMV_" ++ i ++ "_SP_" ++ target.zone_name,
              "Schedule:Compact", "Schedule Value"⟩))) := rfl

theorem programs_programs (b : Building) (sfx : List String)
    (df : List (String × ParamRow)) (cs ce : ℚ) :
    (_add_apmv_programs b sfx df cs ce).programs =
      b.programs ++
        (if (b.programs.map (fun p => p.Name)).contains
            "set_cooling_season_input_data" then []
         else [({ Name := "set_cooling_season_input_data",
                  body := .season_input_data cs ce } : EMSProgram)]) ++
        (if (b.programs.map (fun p => p.Name)).contains
            "set_cooling_season" then []
         else [({ Name := "set_cooling_season",
                  body := .season_compute } : EMSProgram)]) ++
        (sfx.flatMap (fun suffix =>
          match df.find? (fun r => r.2.underscore_zonename = suffix) with
          | none => []
          | some r =>
              (if (b.programs.map (fun p => p.Name)).contains
                  ("set_zone_input_data_" ++ suffix) then []
               else [({ Name := "set_zone_input_data_" ++ suffix,
                        body := .zone_input_data suffix
                          r.2.adap_coeff_cooling r.2.adap_coeff_heating
                          r.2.pmv_cooling_sp r.2.pmv_heating_sp
                          r.2.tolerance_cooling_sp_cooling_season
                          r.2.tolerance_cooling_sp_heating_season
                          r.2.tolerance_heating_sp_cooling_season
                          r.2.tolerance_heating_sp_heating_season } : EMSProgram)]) ++
              (if (b.programs.map (fun p => p.Name)).contains
                  ("apply_aPMV_" ++ suffix) then []
               else [({ Name := "apply_aPMV_" ++ suffix,
                        body := .apply_aPMV suffix } : EMSProgram)]) ++
              (if (b.programs.map (fun p => p.Name)).contains
                  ("monitor_aPMV_" ++ suffix) then []
               else [({ Name := "monitor_aPMV_" ++ suffix,
                        body := .monitor_aPMV suffix } : EMSProgram)]) ++
              (if (b.programs.map (fun p => p.Name)).contains
                  ("count_aPMV_comfort_hours_" ++ suffix) then []
               else [({ Name := "count_aPMV_comfort_hours_" ++ suffix,
                        body := .count_comfort_hours suffix } : EMSProgram)]))) := rfl

theorem pcm_pcms (b : Building) :
    (_add_apmv_program_calling_managers b).pcms =
      b.pcms ++
        ((b.programs.map (fun p => p.Name)).filterMap (fun prog =>
          if (b.pcms.map (fun p => p.Name)).contains prog then none
          else some ⟨prog, "BeginTimestepBeforePredictor", prog⟩)) := rfl

theorem sensors_post (b : Building) (keys sfx : List String) :
    ∀ sk ∈ sfx.zip keys,
      ("PMV_" ++ sk.1) ∈
        (_add_apmv_sensors b keys sfx).sensors.map (fun s => s.Name) ∧
      ("People_Occupant_Count_" ++ sk.1) ∈
        (_add_apmv_sensors b keys sfx).sensors.map (fun s => s.Name) := by
  intro sk hsk
  rw [sensors_sensors, List.map_append]
  constructor
  · by_cases hc : (b.sensors.map (fun s => s.Name)).contains
        ("PMV_" ++ sk.1) = true
    · exact List.mem_append.mpr (Or.inl (by simpa using hc))
    · refine List.mem_append.mpr (Or.inr ?_)
      refine List.mem_map.mpr ⟨⟨"PMV_" ++ sk.1, sk.2,
        "Zone Thermal Comfort Fanger Model PMV"⟩, ?_, rfl⟩
      refine List.mem_flatMap.mpr ⟨sk, hsk, ?_⟩
      refine List.mem_append.mpr (Or.inl ?_)
      rw [if_neg hc]
      exact List.mem_singleton.mpr rfl
  · by_cases hc : (b.sensors.map (fun s => s.Name)).contains
        ("People_Occupant_Count_" ++ sk.1) = true
    · exact List.mem_append.mpr (Or.inl (by simpa using hc))
    · refine List.mem_append.mpr (Or.inr ?_)
      refine List.mem_map.mpr ⟨⟨"People_Occupant_Count_" ++ sk.1, sk.2,
        "People Occupant Count"⟩, ?_, rfl⟩
      refine List.mem_flatMap.mpr ⟨sk, hsk, ?_⟩
      refine List.mem_append.mpr (Or.inr ?_)
      rw [if_neg hc]
      exact List.mem_singleton.mpr rfl

theorem globals_post_season (b : Building) (sfx : List String) :
    ∀ gv, gv = "CoolingSeason" ∨ gv = "CoolSeasonEnd" ∨ gv = "CoolSeasonStart" →
      gv ∈ (_add_apmv_global_variables b sfx).globalVars := by
  intro gv hgv
  rw [globals_globalVars]
  by_cases hc : b.globalVars.contains gv = true
  · exact List.mem_append.mpr (Or.inl (by simpa using hc))
  · refine List.mem_append.mpr (Or.inr (List.mem_append.mpr (Or.inl ?_)))
    refine List.mem_filter.mpr ⟨?_, ?_⟩
    · rcases hgv with rfl | rfl | rfl <;> simp
    · simpa using hc

theorem globals_post_stems (b : Building) (sfx : List String) :
    ∀ stem ∈ gv_variable_stems, ∀ suffix ∈ sfx,
      (stem ++ "_" ++ suffix) ∈ (_add_apmv_global_variables b sfx).globalVars := by
  intro stem hstem suffix hsfx
  rw [globals_globalVars]
  by_cases hc : b.globalVars.contains (stem ++ "_" ++ suffix) = true
  · exact List.mem_append.mpr (Or.inl (by simpa using hc))
  · refine List.mem_append.mpr (Or.inr (List.mem_append.mpr (Or.inr ?_)))
    refine List.mem_flatMap.mpr ⟨stem, hstem, ?_⟩
    refine List.mem_filterMap.mpr ⟨suffix, hsfx, ?_⟩
    rw [if_neg hc]

theorem actuators_post (b : Building) (td : List Target) :
    ∀ t ∈ td, ∀ i ∈ (["H", "C"] : List String),
      ("PMV_" ++ i ++ "_SP_act_" ++ t.ems_suffix) ∈
        (_add_apmv_actuators b td).actuators.map (fun a => a.Name) := by
  intro t ht i hi
  rw [actuators_actuators, List.map_append]
  by_cases hc : (b.actuators.map (fun a => a.Name)).contains
      ("PMV_" ++ i ++ "_SP_act_" ++ t.ems_suffix) = true
  · exact List.mem_append.mpr (Or.inl (by simpa using hc))
  · refine List.mem_append.mpr (Or.inr ?_)
    refine List.mem_map.mpr ⟨⟨"PMV_" ++ i ++ "_SP_act_" ++ t.ems_suffix,
      "PMV_" ++ i ++ "_SP_" ++ t.zone_name,
      "Schedule:Compact", "Schedule Value"⟩, ?_, rfl⟩
    refine List.mem_flatMap.mpr ⟨t, ht, ?_⟩
    refine List.mem_filterMap.mpr ⟨i, hi, ?_⟩
    rw [if_neg hc]

theorem programs_post_season (b : Building) (sfx : List String)
    (df : List (String × ParamRow)) (cs ce : ℚ) :
    "set_cooling_season_input_data" ∈
      (_add_apmv_programs b sfx df cs ce).programs.map (fun p => p.Name) ∧
    "set_cooling_season" ∈
      (_add_apmv_programs b sfx df cs ce).programs.map (fun p => p.Name) := by
  rw [programs_programs, List.map_append, List.map_append, List.map_append]
  constructor
  · by_cases hc : (b.programs.map (fun p => p.Name)).contains
        "set_cooling_season_input_data" = true
    · exact List.mem_append.mpr (Or.inl (List.mem_append.mpr (Or.inl
        (List.mem_append.mpr (Or.inl (by simpa using hc))))))
    · refine List.mem_append.mpr (Or.inl (List.mem_append.mpr (Or.inl
        (List.mem_append.mpr (Or.inr ?_)))))
      rw [if_neg hc]
      simp
  · by_cases hc : (b.programs.map (fun p => p.Name)).contains
        "set_cooling_season" = true
    · exact List.mem_append.mpr (Or.inl (List.mem_append.mpr (Or.inl
        (List.mem_append.mpr (Or.inl (by simpa using hc))))))
    · refine List.mem_append.mpr (Or.inl (List.mem_append.mpr (Or.inr ?_)))
      rw [if_neg hc]
      simp

theorem programs_post_suffix (b : Building) (sfx : List String)
    (df : List (String × ParamRow)) (cs ce : ℚ) :
    ∀ suffix ∈ sfx, ∀ r : String × ParamRow,
      df.find? (fun q => q.2.underscore_zonename = suffix) = some r →
      ∀ nm, nm = "set_zone_input_data_" ++ suffix ∨ nm = "apply_aPMV_" ++ suffix ∨
        nm = "monitor_aPMV_" ++ suffix ∨
        nm = "count_aPMV_comfort_hours_" ++ suffix →
        nm ∈ (_add_apmv_programs b sfx df cs ce).programs.map (fun p => p.Name) := by
  intro suffix hsfx r hdf nm hnm
  rw [programs_programs, List.map_append, List.map_append, List.map_append]
  by_cases hc : (b.programs.map (fun p => p.Name)).contains nm = true
  · exact List.mem_append.mpr (Or.inl (List.mem_append.mpr (Or.inl
      (List.mem_append.mpr (Or.inl (by simpa using hc))))))
  · refine List.mem_append.mpr (Or.inr ?_)
    refine List.mem_map.mpr ?_
    rcases hnm with rfl | rfl | rfl | rfl
    · let pelem : EMSProgram :=
        ({ Name := "set_zone_input_data_" ++ suffix,
           body := .zone_input_data suffix
             r.2.adap_coeff_cooling r.2.adap_coeff_heating
             r.2.pmv_cooling_sp r.2.pmv_heating_sp
             r.2.tolerance_cooling_sp_cooling_season
             r.2.tolerance_cooling_sp_heating_season
             r.2.tolerance_heating_sp_cooling_season
             r.2.tolerance_heating_sp_heating_season } : EMSProgram)
      refine ⟨pelem, ?_, rfl⟩
      refine List.mem_flatMap.mpr ⟨suffix, hsfx, ?_⟩
      simp only [hdf]
      refine List.mem_append.mpr (Or.inl (List.mem_append.mpr (Or.inl
        (List.mem_append.mpr (Or.inl ?_)))))
      rw [if_neg hc]
      exact List.mem_singleton.mpr rfl
    · let pelem : EMSProgram :=
        ({ Name := "apply_aPMV_" ++ suffix,
           body := .apply_aPMV suffix } : EMSProgram)
      refine ⟨pelem, ?_, rfl⟩
      refine List.mem_flatMap.mpr ⟨suffix, hsfx, ?_⟩
      simp only [hdf]
      refine List.mem_append.mpr (Or.inl (List.mem_append.mpr (Or.inl
        (List.mem_append.mpr (Or.inr ?_)))))
      rw [if_neg hc]
      exact List.mem_singleton.mpr rfl
    · let pelem : EMSProgram :=
        ({ Name := "monitor_aPMV_" ++ suffix,
           body := .monitor_aPMV suffix } : EMSProgram)
      refine ⟨pelem, ?_, rfl⟩
      refine List.mem_flatMap.mpr ⟨suffix, hsfx, ?_⟩
      simp only [hdf]
      refine List.mem_append.mpr (Or.inl (List.mem_append.mpr (Or.inr ?_)))
      rw [if_neg hc]
      exact List.mem_singleton.mpr rfl
    · let pelem : EMSProgram :=
        ({ Name := "count_aPMV_comfort_hours_" ++ suffix,
           body := .count_comfort_hours suffix } : EMSProgram)
      refine ⟨pelem, ?_, rfl⟩
      refine List.mem_flatMap.mpr ⟨suffix, hsfx, ?_⟩
      simp only [hdf]
      refine List.mem_append.mpr (Or.inr ?_)
      rw [if_neg hc]
      exact List.mem_singleton.mpr rfl

theorem pcm_post (b : Building) :
    ∀ n ∈ b.programs.map (fun p => p.Name),
      n ∈ (_add_apmv_program_calling_managers b).pcms.map (fun p => p.Name) := by
  intro n hn
  rw [pcm_pcms, List.map_append]
  by_cases hc : (b.pcms.map (fun p => p.Name)).contains n = true
  · exact List.mem_append.mpr (Or.inl (by simpa using hc))
  · refine List.mem_append.mpr (Or.inr ?_)
    refine List.mem_map.mpr ⟨⟨n, "BeginTimestepBeforePredictor", n⟩, ?_, rfl⟩
    refine List.mem_filterMap.mpr ⟨n, hn, ?_⟩
    rw [if_neg hc]

theorem ems_outvar_batch_nil (names : List String) (sfx : List String)
    (h : ∀ kv ∈ EMSOutputVariableZone_dict, ∀ suffix ∈ sfx,
      names.contains (kv.1 ++ "_" ++ suffix) = true) :
    ems_outvar_batch names sfx = [] := by
  unfold ems_outvar_batch
  refine flatMap_eq_nil_of _ _ (fun kv hkv => ?_)
  refine filterMap_eq_nil_of _ _ (fun suffix hsfx => ?_)
  rw [if_pos (h kv hkv suffix hsfx)]

theorem outputs_step_OV_false (uz : List String) (s : Building) (f : String) :
    (add_outputs_freq_step false uz s f).outputVariables =
      (s.outputVariables ++
        (s.emsOutputVars.map (fun o => o.Name)).filterMap (fun outvar =>
          if (current_outputs s f).contains outvar ∨ py_startswith outvar "WIP"
          then none else some ⟨"*", outvar, py_capitalize f⟩)) ++
      sched_for uz f := rfl

theorem outputs_step_OV_true (uz : List String) (s : Building) (f : String) :
    (add_outputs_freq_step true uz s f).outputVariables =
      ((s.outputVariables ++
        (s.emsOutputVars.map (fun o => o.Name)).filterMap (fun outvar =>
          if (current_outputs s f).contains outvar ∨ py_startswith outvar "WIP"
          then none else some ⟨"*", outvar, py_capitalize f⟩)) ++
       sched_for uz f) ++
      additional_outputs.filterMap (fun item =>
        if (current_outputs s f).contains item then none
        else some ⟨"*", item, py_capitalize f⟩) := rfl

theorem outputs_step_ems (fl : Bool) (uz : List String) (s : Building)
    (f : String) :
    (add_outputs_freq_step fl uz s f).emsOutputVars = s.emsOutputVars := by
  rw [outputs_step_eq]

theorem outputs_step_co_mono (fl : Bool) (uz : List String) (s : Building)
    (f0 f x : String) (h : x ∈ current_outputs s f) :
    x ∈ current_outputs (add_outputs_freq_step fl uz s f0) f := by
  simp only [current_outputs] at h ⊢
  cases fl with
  | false =>
      rw [outputs_step_OV_false, List.filter_append, List.map_append,
        List.filter_append, List.map_append]
      exact List.mem_append_left _ (List.mem_append_left _ h)
  | true =>
      rw [outputs_step_OV_true, List.filter_append, List.map_append,
        List.filter_append, List.map_append, List.filter_append, List.map_append]
      exact List.mem_append_left _ (List.mem_append_left _ (List.mem_append_left _ h))

theorem outputs_step_post_self (fl : Bool) (uz : List String) (s : Building)
    (f : String) :
    (∀ n ∈ s.emsOutputVars.map (fun o => o.Name),
      py_startswith n "WIP" = false →
      n ∈ current_outputs (add_outputs_freq_step fl uz s f) f) ∧
    (fl = true → ∀ a ∈ additional_outputs,
      a ∈ current_outputs (add_outputs_freq_step fl uz s f) f) := by
  cases fl with
  | false =>
      constructor
      · intro n hn hw
        simp only [current_outputs]
        rw [outputs_step_OV_false, List.filter_append, List.map_append,
          List.filter_append, List.map_append]
        by_cases hn0 : n ∈ current_outputs s f
        · refine List.mem_append.mpr (Or.inl (List.mem_append.mpr (Or.inl ?_)))
          simp only [current_outputs] at hn0
          exact hn0
        · refine List.mem_append.mpr (Or.inl (List.mem_append.mpr (Or.inr ?_)))
          have hcond : ¬((current_outputs s f).contains n = true ∨
              py_startswith n "WIP" = true) := by
            rintro (hcont | hwip)
            · exact hn0 (by simpa using hcont)
            · rw [hw] at hwip
              exact Bool.noConfusion hwip
          refine List.mem_map.mpr ⟨⟨"*", n, py_capitalize f⟩, ?_, rfl⟩
          refine List.mem_filter.mpr ⟨?_, by simp⟩
          refine List.mem_filterMap.mpr ⟨n, hn, ?_⟩
          rw [if_neg hcond]
      · exact fun hfl => Bool.noConfusion hfl
  | true =>
      constructor
      · intro n hn hw
        simp only [current_outputs]
        rw [outputs_step_OV_true, List.filter_append, List.map_append,
          List.filter_append, List.map_append, List.filter_append, List.map_append]
        by_cases hn0 : n ∈ current_outputs s f
        · refine List.mem_append.mpr (Or.inl (List.mem_append.mpr (Or.inl
            (List.mem_append.mpr (Or.inl ?_)))))
          simp only [current_outputs] at hn0
          exact hn0
        · refine List.mem_append.mpr (Or.inl (List.mem_append.mpr (Or.inl
            (List.mem_append.mpr (Or.inr ?_)))))
          have hcond : ¬((current_outputs s f).contains n = true ∨
              py_startswith n "WIP" = true) := by
            rintro (hcont | hwip)
            · exact hn0 (by simpa using hcont)
            · rw [hw] at hwip
              exact Bool.noConfusion hwip
          refine List.mem_map.mpr ⟨⟨"*", n, py_capitalize f⟩, ?_, rfl⟩
          refine List.mem_filter.mpr ⟨?_, by simp⟩
          refine List.mem_filterMap.mpr ⟨n, hn, ?_⟩
          rw [if_neg hcond]
      · intro _ a ha
        simp only [current_outputs]
        rw [outputs_step_OV_true, List.filter_append, List.map_append,
          List.filter_append, List.map_append, List.filter_append, List.map_append]
        by_cases ha0 : a ∈ current_outputs s f
        · refine List.mem_append.mpr (Or.inl (List.mem_append.mpr (Or.inl
            (List.mem_append.mpr (Or.inl ?_)))))
          simp only [current_outputs] at ha0
          exact ha0
        · refine List.mem_append.mpr (Or.inr ?_)
          have hcond : ¬((current_outputs s f).contains a = true) :=
            fun hcont => ha0 (by simpa using hcont)
          refine List.mem_map.mpr ⟨⟨"*", a, py_capitalize f⟩, ?_, rfl⟩
          refine List.mem_filter.mpr ⟨?_, by simp⟩
          refine List.mem_filterMap.mpr ⟨a, ha, ?_⟩
          rw [if_neg hcond]

theorem fold_co_mono (fl : Bool) (uz : List String) (fs : List String) :
    ∀ (s : Building) (f x : String),
      x ∈ current_outputs s f →
      x ∈ current_outputs (fs.foldl (add_outputs_freq_step fl uz) s) f := by
  induction fs with
  | nil => exact fun s f x h => h
  | cons f1 fs1 ih =>
      intro s f x h
      rw [List.foldl_cons]
      exact ih _ f x (outputs_step_co_mono fl uz s f1 f x h)

theorem fold_outputs_post (fl : Bool) (uz : List String) (freqs : List String) :
    ∀ s : Building, ∀ f ∈ freqs,
      (∀ n ∈ s.emsOutputVars.map (fun o => o.Name),
        py_startswith n "WIP" = false →
        n ∈ current_outputs (freqs.foldl (add_outputs_freq_step fl uz) s) f) ∧
      (fl = true → ∀ a ∈ additional_outputs,
        a ∈ current_outputs (freqs.foldl (add_outputs_freq_step fl uz) s) f) := by
  induction freqs with
  | nil => intro s f hf; exact absurd hf (List.not_mem_nil f)
  | cons f0 fs ih =>
      intro s f hf
      rw [List.foldl_cons]
      rcases List.mem_cons.mp hf with rfl | hf'
      · constructor
        · intro n hn hw
          exact fold_co_mono fl uz fs _ f n
            ((outputs_step_post_self fl uz s f).1 n hn hw)
        · intro hfl a ha
          exact fold_co_mono fl uz fs _ f a
            ((outputs_step_post_self fl uz s f).2 hfl a ha)
      · constructor
        · intro n hn hw
          refine (ih (add_outputs_freq_step fl uz s f0) f hf').1 n ?_ hw
          rw [outputs_step_ems]
          exact hn
        · exact fun hfl a ha =>
            (ih (add_outputs_freq_step fl uz s f0) f hf').2 hfl a ha

theorem outputs_step_second_OV (fl : Bool) (uz : List String) (s : Building)
    (f : String)
    (hems : ∀ n ∈ s.emsOutputVars.map (fun o => o.Name),
      py_startswith n "WIP" = false → n ∈ current_outputs s f)
    (hadd : fl = true → ∀ a ∈ additional_outputs, a ∈ current_outputs s f) :
    (add_outputs_freq_step fl uz s f).outputVariables =
      s.outputVariables ++ sched_for uz f := by
  have hemsnil : (s.emsOutputVars.map (fun o => o.Name)).filterMap (fun outvar =>
      if (current_outputs s f).contains outvar ∨ py_startswith outvar "WIP"
      then none
      else some (⟨"*", outvar, py_capitalize f⟩ : OutputVariable)) = [] := by
    refine filterMap_eq_nil_of _ _ (fun n hn => ?_)
    by_cases hwip : py_startswith n "WIP" = true
    · rw [if_pos (Or.inr hwip)]
    · have hf0 : py_startswith n "WIP" = false := by
        cases hpw : py_startswith n "WIP"
        · rfl
        · exact absurd hpw hwip
      have hmem := hems n hn hf0
      rw [if_pos (Or.inl (by simpa using hmem))]
  cases fl with
  | false =>
      rw [outputs_step_OV_false, hemsnil, List.append_nil]
  | true =>
      have haddnil : additional_outputs.filterMap (fun item =>
          if (current_outputs s f).contains item then none
          else some (⟨"*", item, py_capitalize f⟩ : OutputVariable)) = [] := by
        refine filterMap_eq_nil_of _ _ (fun a ha => ?_)
        rw [if_pos (by simpa using hadd rfl a ha)]
      rw [outputs_step_OV_true, hemsnil, List.append_nil, haddnil,
        List.append_nil]

theorem fold_outputs_second_OV (fl : Bool) (uz : List String)
    (freqs : List String) :
    ∀ s : Building,
      (∀ f ∈ freqs,
        (∀ n ∈ s.emsOutputVars.map (fun o => o.Name),
          py_startswith n "WIP" = false → n ∈ current_outputs s f) ∧
        (fl = true → ∀ a ∈ additional_outputs, a ∈ current_outputs s f)) →
      (freqs.foldl (add_outputs_freq_step fl uz) s).outputVariables =
        s.outputVariables ++ freqs.flatMap (fun f => sched_for uz f) := by
  induction freqs with
  | nil =>
      intro s _
      simp
  | cons f0 fs ih =>
      intro s h
      rw [List.foldl_cons]
      have hstepOV := outputs_step_second_OV fl uz s f0
        (h f0 (List.mem_cons_self f0 fs)).1 (h f0 (List.mem_cons_self f0 fs)).2
      have hnext : ∀ f ∈ fs,
          (∀ n ∈ (add_outputs_freq_step fl uz s f0).emsOutputVars.map
              (fun o => o.Name),
            py_startswith n "WIP" = false →
            n ∈ current_outputs (add_outputs_freq_step fl uz s f0) f) ∧
          (fl = true → ∀ a ∈ additional_outputs,
            a ∈ current_outputs (add_outputs_freq_step fl uz s f0) f) := by
        intro f hff
        obtain ⟨h1, h2⟩ := h f (List.mem_cons_of_mem f0 hff)
        constructor
        · intro n hn hw
          rw [outputs_step_ems] at hn
          exact outputs_step_co_mono fl uz s f0 f n (h1 n hn hw)
        · intro hfl a ha
          exact outputs_step_co_mono fl uz s f0 f a (h2 hfl a ha)
      rw [ih (add_outputs_freq_step fl uz s f0) hnext, hstepOV,
        List.flatMap_cons, ← List.append_assoc]

theorem outputs_OV_eq_fold (b : Building) (freqs : List String) (fl : Bool)
    (sfx uz : List String) :
    (_add_apmv_outputs b freqs fl sfx uz).outputVariables =
      (freqs.foldl (add_outputs_freq_step fl uz)
        ({ b with emsOutputVars := b.emsOutputVars ++
            ems_outvar_batch (b.emsOutputVars.map (fun o => o.Name)) sfx } :
          Building)).outputVariables := by
  simp only [_add_apmv_outputs]
  split <;> rfl

theorem outputs_ems_eq (b : Building) (freqs : List String) (fl : Bool)
    (sfx uz : List String) :
    (_add_apmv_outputs b freqs fl sfx uz).emsOutputVars =
      b.emsOutputVars ++
        ems_outvar_batch (b.emsOutputVars.map (fun o => o.Name)) sfx := by
  simp only [_add_apmv_outputs]
  rw [fold_outputs_step_eq]
  split <;> rfl

theorem outputs_post_ems (b : Building) (freqs : List String) (fl : Bool)
    (sfx uz : List String) :
    ∀ kv ∈ EMSOutputVariableZone_dict, ∀ suffix ∈ sfx,
      (kv.1 ++ "_" ++ suffix) ∈
        (_add_apmv_outputs b freqs fl sfx uz).emsOutputVars.map
          (fun o => o.Name) := by
  intro kv hkv suffix hsfx
  rw [outputs_ems_eq, List.map_append]
  by_cases hc : (b.emsOutputVars.map (fun o => o.Name)).contains
      (kv.1 ++ "_" ++ suffix) = true
  · exact List.mem_append.mpr (Or.inl (by simpa using hc))
  · refine List.mem_append.mpr (Or.inr ?_)
    refine List.mem_map.mpr ⟨⟨kv.1 ++ "_" ++ suffix, kv.2.1 ++ "_" ++ suffix,
      kv.2.2.2, "ZoneTimestep", kv.2.2.1⟩, ?_, rfl⟩
    unfold ems_outvar_batch
    refine List.mem_flatMap.mpr ⟨kv, hkv, ?_⟩
    refine List.mem_filterMap.mpr ⟨suffix, hsfx, ?_⟩
    rw [if_neg hc]

theorem outputs_post_ocf (b : Building) (freqs : List String) (fl : Bool)
    (sfx uz : List String) :
    ∃ rest, (_add_apmv_outputs b freqs fl sfx uz).outputControlFiles =
      (⟨"Yes", "Yes", "Yes"⟩ : OutputControlFiles) :: rest := by
  simp only [_add_apmv_outputs]
  split
  · exact ⟨[], rfl⟩
  · exact ⟨_, rfl⟩

theorem outputs_post_freq (b : Building) (freqs : List String) (fl : Bool)
    (sfx uz : List String) :
    ∀ f ∈ freqs,
      (∀ n ∈ (_add_apmv_outputs b freqs fl sfx uz).emsOutputVars.map
          (fun o => o.Name),
        py_startswith n "WIP" = false →
        n ∈ current_outputs (_add_apmv_outputs b freqs fl sfx uz) f) ∧
      (fl = true → ∀ a ∈ additional_outputs,
        a ∈ current_outputs (_add_apmv_outputs b freqs fl sfx uz) f) := by
  intro f hf
  have hco : ∀ x : String,
      x ∈ current_outputs (freqs.foldl (add_outputs_freq_step fl uz)
        ({ b with emsOutputVars := b.emsOutputVars ++
            ems_outvar_batch (b.emsOutputVars.map (fun o => o.Name)) sfx } :
          Building)) f →
      x ∈ current_outputs (_add_apmv_outputs b freqs fl sfx uz) f := by
    intro x hx
    simp only [current_outputs] at hx ⊢
    rw [outputs_OV_eq_fold]
    exact hx
  have hpost := fold_outputs_post fl uz freqs
    ({ b with emsOutputVars := b.emsOutputVars ++
        ems_outvar_batch (b.emsOutputVars.map (fun o => o.Name)) sfx } :
      Building) f hf
  constructor
  · intro n hn hw
    refine hco n (hpost.1 n ?_ hw)
    rw [outputs_ems_eq] at hn
    exact hn
  · intro hfl a ha
    exact hco a (hpost.2 hfl a ha)

theorem outputs_second (s : Building) (freqs : List String) (fl : Bool)
    (sfx uz : List String)
    (hems_names : ∀ kv ∈ EMSOutputVariableZone_dict, ∀ suffix ∈ sfx,
      (s.emsOutputVars.map (fun o => o.Name)).contains
        (kv.1 ++ "_" ++ suffix) = true)
    (hfr : ∀ f ∈ freqs,
      (∀ n ∈ s.emsOutputVars.map (fun o => o.Name),
        py_startswith n "WIP" = false → n ∈ current_outputs s f) ∧
      (fl = true → ∀ a ∈ additional_outputs, a ∈ current_outputs s f))
    (hocf : ∃ rest, s.outputControlFiles =
      (⟨"Yes", "Yes", "Yes"⟩ : OutputControlFiles) :: rest) :
    _add_apmv_outputs s freqs fl sfx uz =
      ⟨s.zones, s.zonelists, s.spacelists, s.spaces, s.people, s.schedules,
       s.thermostats, s.tcThermostats, s.fangerObjs, s.sensors, s.actuators,
       s.globalVars, s.programs, s.pcms, s.emsOutputVars,
       s.outputVariables ++ freqs.flatMap (fun f => sched_for uz f),
       s.outputControlFiles⟩ := by
  obtain ⟨rest, hr⟩ := hocf
  simp only [_add_apmv_outputs]
  rw [ems_outvar_batch_nil _ _ hems_names, List.append_nil]
  have hbb : ({ s with emsOutputVars := s.emsOutputVars } : Building) = s := rfl
  rw [hbb]
  rw [fold_outputs_step_eq, fold_outputs_second_OV fl uz freqs s hfr]
  dsimp only
  rw [hr]

theorem apply_keep_schedules (building : Building) (args : ApmvArgs) :
    (apply_apmv_setpoints building args).schedules =
      (_ensure_infrastructure building
        (py_list_set ((_resolve_targets building).1.map
          Target.zone_name))).schedules := by
  simp only [apply_apmv_setpoints]
  rw [outputs_proj_schedules, pcm_proj_schedules, programs_proj_schedules,
    actuators_proj_schedules, globals_proj_schedules, sensors_proj_schedules]

theorem apply_keep_tcThermostats (building : Building) (args : ApmvArgs) :
    (apply_apmv_setpoints building args).tcThermostats =
      (_ensure_infrastructure building
        (py_list_set ((_resolve_targets building).1.map
          Target.zone_name))).tcThermostats := by
  simp only [apply_apmv_setpoints]
  rw [outputs_proj_tcThermostats, pcm_proj_tcThermostats,
    programs_proj_tcThermostats, actuators_proj_tcThermostats,
    globals_proj_tcThermostats, sensors_proj_tcThermostats]

theorem apply_keep_fangerObjs (building : Building) (args : ApmvArgs) :
    (apply_apmv_setpoints building args).fangerObjs =
      (_ensure_infrastructure building
        (py_list_set ((_resolve_targets building).1.map
          Target.zone_name))).fangerObjs := by
  simp only [apply_apmv_setpoints]
  rw [outputs_proj_fangerObjs, pcm_proj_fangerObjs, programs_proj_fangerObjs,
    actuators_proj_fangerObjs, globals_proj_fangerObjs, sensors_proj_fangerObjs]

theorem apply_keep_sensors (building : Building) (args : ApmvArgs) :
    (apply_apmv_setpoints building args).sensors =
      (_add_apmv_sensors
        (_ensure_infrastructure building
          (py_list_set ((_resolve_targets building).1.map Target.zone_name)))
        ((_resolve_targets building).1.map Target.sensor_key)
        ((_resolve_targets building).1.map Target.ems_suffix)).sensors := by
  simp only [apply_apmv_setpoints]
  rw [outputs_proj_sensors, pcm_proj_sensors, programs_proj_sensors,
    actuators_proj_sensors, globals_proj_sensors]

theorem apply_keep_globalVars (building : Building) (args : ApmvArgs) :
    (apply_apmv_setpoints building args).globalVars =
      (_add_apmv_global_variables
        (_add_apmv_sensors
          (_ensure_infrastructure building
            (py_list_set ((_resolve_targets building).1.map Target.zone_name)))
          ((_resolve_targets building).1.map Target.sensor_key)
          ((_resolve_targets building).1.map Target.ems_suffix))
        ((_resolve_targets building).1.map Target.ems_suffix)).globalVars := by
  simp only [apply_apmv_setpoints]
  rw [outputs_proj_globalVars, pcm_proj_globalVars, programs_proj_globalVars,
    actuators_proj_globalVars]

theorem apply_keep_actuators (building : Building) (args : ApmvArgs) :
    (apply_apmv_setpoints building args).actuators =
      (_add_apmv_actuators
        (_add_apmv_global_variables
          (_add_apmv_sensors
            (_ensure_infrastructure building
              (py_list_set ((_resolve_targets building).1.map Target.zone_name)))
            ((_resolve_targets building).1.map Target.sensor_key)
            ((_resolve_targets building).1.map Target.ems_suffix))
          ((_resolve_targets building).1.map Target.ems_suffix))
        (_resolve_targets building).1).actuators := by
  simp only [apply_apmv_setpoints]
  rw [outputs_proj_actuators, pcm_proj_actuators, programs_proj_actuators]

theorem apply_keep_programs (building : Building) (args : ApmvArgs) :
    (apply_apmv_setpoints building args).programs =
      (_add_apmv_programs
        (_add_apmv_actuators
          (_add_apmv_global_variables
            (_add_apmv_sensors
              (_ensure_infrastructure building
                (py_list_set ((_resolve_targets building).1.map
                  Target.zone_name)))
              ((_resolve_targets building).1.map Target.sensor_key)
              ((_resolve_targets building).1.map Target.ems_suffix))
            ((_resolve_targets building).1.map Target.ems_suffix))
          (_resolve_targets building).1)
        ((_resolve_targets building).1.map Target.ems_suffix)
        (apply_df_arguments (_resolve_targets building).1 args).1
        args.cooling_season_start args.cooling_season_end).programs := by
  simp only [apply_apmv_setpoints]
  rw [outputs_proj_programs, pcm_proj_programs]

theorem apply_keep_pcms (building : Building) (args : ApmvArgs) :
    (apply_apmv_setpoints building args).pcms =
      (_add_apmv_program_calling_managers
        (_add_apmv_programs
          (_add_apmv_actuators
            (_add_apmv_global_variables
              (_add_apmv_sensors
                (_ensure_infrastructure building
                  (py_list_set ((_resolve_targets building).1.map
                    Target.zone_name)))
                ((_resolve_targets building).1.map Target.sensor_key)
                ((_resolve_targets building).1.map Target.ems_suffix))
              ((_resolve_targets building).1.map Target.ems_suffix))
            (_resolve_targets building).1)
          ((_resolve_targets building).1.map Target.ems_suffix)
          (apply_df_arguments (_resolve_targets building).1 args).1
          args.cooling_season_start args.cooling_season_end)).pcms := by
  simp only [apply_apmv_setpoints]
  rw [outputs_proj_pcms]

theorem apply_post_sched (building : Building) (args : ApmvArgs) :
    ∀ z ∈ py_list_set ((_resolve_targets building).1.map Target.zone_name),
      ∀ i, i = "PMV_H_SP" ∨ i = "PMV_C_SP" →
      ((apply_apmv_setpoints building args).schedules.map
        (fun s => s.Name)).contains (i ++ "_" ++ z) = true := by
  intro z hz i hi
  rw [apply_keep_schedules]
  simpa using ensure_sched_post building _ z hz i hi

theorem apply_post_tc (building : Building) (args : ApmvArgs) :
    ∀ z ∈ py_list_set ((_resolve_targets building).1.map Target.zone_name),
      fanger_tc_at (apply_apmv_setpoints building args) (pyUpper z) := by
  intro z hz
  refine fanger_tc_congr ?_ (ensure_tc_post building _ z hz)
  exact (apply_keep_tcThermostats building args).symm

theorem apply_post_obj (building : Building) (args : ApmvArgs) :
    ∀ z ∈ py_list_set ((_resolve_targets building).1.map Target.zone_name),
      fanger_obj_at (apply_apmv_setpoints building args) z := by
  intro z hz
  refine fanger_obj_congr ?_
    (ensure_obj_post building _ (nodup_py_list_set _) z hz)
  exact (apply_keep_fangerObjs building args).symm

theorem apply_post_sensors (building : Building) (args : ApmvArgs) :
    ∀ sk ∈ ((_resolve_targets building).1.map Target.ems_suffix).zip
        ((_resolve_targets building).1.map Target.sensor_key),
      ((apply_apmv_setpoints building args).sensors.map
        (fun s => s.Name)).contains ("PMV_" ++ sk.1) = true ∧
      ((apply_apmv_setpoints building args).sensors.map
        (fun s => s.Name)).contains ("People_Occupant_Count_" ++ sk.1) = true := by
  intro sk hsk
  rw [apply_keep_sensors]
  have h := sensors_post
    (_ensure_infrastructure building
      (py_list_set ((_resolve_targets building).1.map Target.zone_name)))
    ((_resolve_targets building).1.map Target.sensor_key)
    ((_resolve_targets building).1.map Target.ems_suffix) sk hsk
  exact ⟨by simpa using h.1, by simpa using h.2⟩

theorem apply_post_globals_season (building : Building) (args : ApmvArgs) :
    ∀ gv, gv = "CoolingSeason" ∨ gv = "CoolSeasonEnd" ∨ gv = "CoolSeasonStart" →
      (apply_apmv_setpoints building args).globalVars.contains gv = true := by
  intro gv hgv
  rw [apply_keep_globalVars]
  simpa using globals_post_season _ _ gv hgv

theorem apply_post_globals_stems (building : Building) (args : ApmvArgs) :
    ∀ stem ∈ gv_variable_stems,
      ∀ suffix ∈ (_resolve_targets building).1.map Target.ems_suffix,
      (apply_apmv_setpoints building args).globalVars.contains
        (stem ++ "_" ++ suffix) = true := by
  intro stem hstem suffix hsfx
  rw [apply_keep_globalVars]
  simpa using globals_post_stems _ _ stem hstem suffix hsfx

theorem apply_post_actuators (building : Building) (args : ApmvArgs) :
    ∀ t ∈ (_resolve_targets building).1, ∀ i ∈ (["H", "C"] : List String),
      ((apply_apmv_setpoints building args).actuators.map
        (fun a => a.Name)).contains
        ("PMV_" ++ i ++ "_SP_act_" ++ t.ems_suffix) = true := by
  intro t ht i hi
  rw [apply_keep_actuators]
  simpa using actuators_post _ _ t ht i hi

theorem apply_post_programs_season (building : Building) (args : ApmvArgs) :
    ((apply_apmv_setpoints building args).programs.map
      (fun p => p.Name)).contains "set_cooling_season_input_data" = true ∧
    ((apply_apmv_setpoints building args).programs.map
      (fun p => p.Name)).contains "set_cooling_season" = true := by
  rw [apply_keep_programs]
  refine ⟨by simpa using (programs_post_season _ _ _ _ _).1,
    by simpa using (programs_post_season _ _ _ _ _).2⟩

theorem apply_post_programs_suffix (building : Building) (args : ApmvArgs) :
    ∀ suffix ∈ (_resolve_targets building).1.map Target.ems_suffix,
      ∀ r : String × ParamRow,
      (apply_df_arguments (_resolve_targets building).1 args).1.find?
        (fun q => q.2.underscore_zonename = suffix) = some r →
      ((apply_apmv_setpoints building args).programs.map
        (fun p => p.Name)).contains ("set_zone_input_data_" ++ suffix) = true ∧
      ((apply_apmv_setpoints building args).programs.map
        (fun p => p.Name)).contains ("apply_aPMV_" ++ suffix) = true ∧
      ((apply_apmv_setpoints building args).programs.map
        (fun p => p.Name)).contains ("monitor_aPMV_" ++ suffix) = true ∧
      ((apply_apmv_setpoints building args).programs.map
        (fun p => p.Name)).contains
        ("count_aPMV_comfort_hours_" ++ suffix) = true := by
  intro suffix hsfx r hdf
  rw [apply_keep_programs]
  have h := programs_post_suffix
    (_add_apmv_actuators
      (_add_apmv_global_variables
        (_add_apmv_sensors
          (_ensure_infrastructure building
            (py_list_set ((_resolve_targets building).1.map Target.zone_name)))
          ((_resolve_targets building).1.map Target.sensor_key)
          ((_resolve_targets building).1.map Target.ems_suffix))
        ((_resolve_targets building).1.map Target.ems_suffix))
      (_resolve_targets building).1)
    ((_resolve_targets building).1.map Target.ems_suffix)
    (apply_df_arguments (_resolve_targets building).1 args).1
    args.cooling_season_start args.cooling_season_end suffix hsfx r hdf
  exact ⟨by simpa using h _ (Or.inl rfl),
    by simpa using h _ (Or.inr (Or.inl rfl)),
    by simpa using h _ (Or.inr (Or.inr (Or.inl rfl))),
    by simpa using h _ (Or.inr (Or.inr (Or.inr rfl)))⟩

theorem apply_post_pcm (building : Building) (args : ApmvArgs) :
    ∀ n ∈ (apply_apmv_setpoints building args).programs.map (fun p => p.Name),
      ((apply_apmv_setpoints building args).pcms.map
        (fun p => p.Name)).contains n = true := by
  intro n hn
  rw [apply_keep_programs] at hn
  rw [apply_keep_pcms]
  simpa using pcm_post _ n hn

theorem apply_post_ems (building : Building) (args : ApmvArgs) :
    ∀ kv ∈ EMSOutputVariableZone_dict,
      ∀ suffix ∈ (_resolve_targets building).1.map Target.ems_suffix,
      ((apply_apmv_setpoints building args).emsOutputVars.map
        (fun o => o.Name)).contains (kv.1 ++ "_" ++ suffix) = true := by
  intro kv hkv suffix hsfx
  simp only [apply_apmv_setpoints]
  simpa using outputs_post_ems _ _ _ _ _ kv hkv suffix hsfx

theorem apply_post_freq (building : Building) (args : ApmvArgs) :
    ∀ f ∈ args.outputs_freq,
      (∀ n ∈ (apply_apmv_setpoints building args).emsOutputVars.map
          (fun o => o.Name),
        py_startswith n "WIP" = false →
        n ∈ current_outputs (apply_apmv_setpoints building args) f) ∧
      (args.other_PMV_related_outputs = true → ∀ a ∈ additional_outputs,
        a ∈ current_outputs (apply_apmv_setpoints building args) f) := by
  intro f hf
  simp only [apply_apmv_setpoints]
  exact outputs_post_freq _ _ _ _ _ f hf

theorem apply_post_ocf (building : Building) (args : ApmvArgs) :
    ∃ rest, (apply_apmv_setpoints building args).outputControlFiles =
      (⟨"Yes", "Yes", "Yes"⟩ : OutputControlFiles) :: rest := by
  simp only [apply_apmv_setpoints]
  exact outputs_post_ocf _ _ _ _ _

theorem apply_second_run (m building : Building) (args : ApmvArgs)
    (hres : _resolve_targets m = _resolve_targets building)
    (hA : ∀ z ∈ py_list_set ((_resolve_targets building).1.map Target.zone_name),
      ∀ i, i = "PMV_H_SP" ∨ i = "PMV_C_SP" →
      (m.schedules.map (fun s => s.Name)).contains (i ++ "_" ++ z) = true)
    (hB : ∀ z ∈ py_list_set ((_resolve_targets building).1.map Target.zone_name),
      fanger_tc_at m (pyUpper z))
    (hC : ∀ z ∈ py_list_set ((_resolve_targets building).1.map Target.zone_name),
      fanger_obj_at m z)
    (hsens : ∀ sk ∈ ((_resolve_targets building).1.map Target.ems_suffix).zip
        ((_resolve_targets building).1.map Target.sensor_key),
      (m.sensors.map (fun s => s.Name)).contains ("PMV_" ++ sk.1) = true ∧
      (m.sensors.map (fun s => s.Name)).contains
        ("People_Occupant_Count_" ++ sk.1) = true)
    (hg1 : ∀ gv, gv = "CoolingSeason" ∨ gv = "CoolSeasonEnd" ∨
      gv = "CoolSeasonStart" → m.globalVars.contains gv = true)
    (hg2 : ∀ stem ∈ gv_variable_stems,
      ∀ suffix ∈ (_resolve_targets building).1.map Target.ems_suffix,
      m.globalVars.contains (stem ++ "_" ++ suffix) = true)
    (hact : ∀ t ∈ (_resolve_targets building).1, ∀ i ∈ (["H", "C"] : List String),
      (m.actuators.map (fun a => a.Name)).contains
        ("PMV_" ++ i ++ "_SP_act_" ++ t.ems_suffix) = true)
    (hp1 : (m.programs.map (fun p => p.Name)).contains
      "set_cooling_season_input_data" = true)
    (hp2 : (m.programs.map (fun p => p.Name)).contains
      "set_cooling_season" = true)
    (hp3 : ∀ suffix ∈ (_resolve_targets building).1.map Target.ems_suffix,
      ∀ r : String × ParamRow,
      (apply_df_arguments (_resolve_targets building).1 args).1.find?
        (fun q => q.2.underscore_zonename = suffix) = some r →
      (m.programs.map (fun p => p.Name)).contains
        ("set_zone_input_data_" ++ suffix) = true ∧
      (m.programs.map (fun p => p.Name)).contains
        ("apply_aPMV_" ++ suffix) = true ∧
      (m.programs.map (fun p => p.Name)).contains
        ("monitor_aPMV_" ++ suffix) = true ∧
      (m.programs.map (fun p => p.Name)).contains
        ("count_aPMV_comfort_hours_" ++ suffix) = true)
    (hpcm : ∀ n ∈ m.programs.map (fun p => p.Name),
      (m.pcms.map (fun p => p.Name)).contains n = true)
    (hems : ∀ kv ∈ EMSOutputVariableZone_dict,
      ∀ suffix ∈ (_resolve_targets building).1.map Target.ems_suffix,
      (m.emsOutputVars.map (fun o => o.Name)).contains
        (kv.1 ++ "_" ++ suffix) = true)
    (hfr : ∀ f ∈ args.outputs_freq,
      (∀ n ∈ m.emsOutputVars.map (fun o => o.Name),
        py_startswith n "WIP" = false → n ∈ current_outputs m f) ∧
      (args.other_PMV_related_outputs = true →
        ∀ a ∈ additional_outputs, a ∈ current_outputs m f))
    (hocf : ∃ rest, m.outputControlFiles =
      (⟨"Yes", "Yes", "Yes"⟩ : OutputControlFiles) :: rest) :
    apply_apmv_setpoints m args =
      ⟨m.zones, m.zonelists, m.spacelists, m.spaces, m.people, m.schedules,
       m.thermostats, m.tcThermostats, m.fangerObjs, m.sensors, m.actuators,
       m.globalVars, m.programs, m.pcms, m.emsOutputVars,
       m.outputVariables ++ args.outputs_freq.flatMap (fun f =>
         sched_for (py_list_set ((_resolve_targets building).1.map
           Target.zone_name)) f),
       m.outputControlFiles⟩ := by
  simp only [apply_apmv_setpoints]
  rw [hres]
  rw [ensure_noop _ _ hA hB hC]
  rw [sensors_noop _ _ _ hsens]
  rw [globals_noop _ _ hg1 hg2]
  rw [actuators_noop _ _ hact]
  rw [programs_noop _ _ _ _ _ hp1 hp2 hp3]
  rw [pcm_noop _ hpcm]
  exact outputs_second m args.outputs_freq args.other_PMV_related_outputs _ _
    hems hfr hocf

/-- C2: the claimed idempotence of `apply_apmv_setpoints` fails, but in
exactly one place. A second run with the same arguments resolves the same
targets and leaves every guarded collection untouched (schedules,
thermostats, Fanger objects, sensors, actuators, global variables, programs,
program calling managers, EMS output variables, OutputControl:Files), and
appends exactly one fresh copy of the unguarded per-zone "Schedule Value"
`Output:Variable` requests (source lines 552-555): one per reporting
frequency, per schedule kind (`PMV_H_SP`/`PMV_C_SP`), per unique target
zone. -/
theorem C2_double_application (building : Building) (args : ApmvArgs) :
    apply_apmv_setpoints (apply_apmv_setpoints building args) args =
      { apply_apmv_setpoints building args with
        outputVariables :=
          (apply_apmv_setpoints building args).outputVariables ++
            schedule_value_requests building args } := by
  have h := apply_second_run (apply_apmv_setpoints building args) building args
    (resolve_apply building args)
    (apply_post_sched building args)
    (apply_post_tc building args)
    (apply_post_obj building args)
    (apply_post_sensors building args)
    (apply_post_globals_season building args)
    (apply_post_globals_stems building args)
    (apply_post_actuators building args)
    (apply_post_programs_season building args).1
    (apply_post_programs_season building args).2
    (apply_post_programs_suffix building args)
    (apply_post_pcm building args)
    (apply_post_ems building args)
    (apply_post_freq building args)
    (apply_post_ocf building args)
  rw [h]
  rfl

/-- C2 counterexample: on a one-zone model with the default arguments the
second invocation is not the identity on the augmented model - it appends
two more "Schedule Value" output requests. -/
theorem C2_counterexample :
    apply_apmv_setpoints (apply_apmv_setpoints bC2 {}) {} ≠
      apply_apmv_setpoints bC2 {} := by
  intro h
  have hlen := congrArg (fun b => b.outputVariables.length) h
  simp only at hlen
  exact absurd hlen (by decide)
